import Mathlib

/-!
Shallow embedding of the Xidi controller translation engine
(`Source/VirtualController.cpp`, `Mapper.cpp`) and verification of the
specified properties against it.

Machine integers are modelled as `Int` with explicit 32-bit wraparound
(`wrap32`) wherever the C source performs arithmetic on 32-bit signed
operands whose result can exceed the representable range.  C casts from
floating-point or integer division truncate toward zero (`Int.tdiv`,
`truncQ`).  The source's `double` arithmetic is modelled exactly over `ℚ`;
per the specification (§4.3) all roundings that feed integer casts
truncate toward zero, and at every concrete input evaluated below the
IEEE-754 double computation and the exact rational computation produce
the same truncated integer.
-/

/-- Two's-complement wraparound of 32-bit signed arithmetic: maps an
unbounded integer to the representative in `[-2^31, 2^31)` (C signed
overflow modelled as wraparound). -/
def wrap32 (x : ℤ) : ℤ := (x + 2 ^ 31) % 2 ^ 32 - 2 ^ 31

/-- C cast of a value to `SHORT` (used for the 16-bit `TInstanceIdx`):
keeps the low 16 bits, interpreted as a two's-complement 16-bit value. -/
def toShort16 (x : ℤ) : ℤ := (x + 2 ^ 15) % 2 ^ 16 - 2 ^ 15

/-- C truncation toward zero of a rational value to an integer, i.e. the
semantics of a C cast from `double` to an integer type. -/
def truncQ (q : ℚ) : ℤ := if q < 0 then ⌈q⌉ else ⌊q⌋

theorem wrap32_eq_self {x : ℤ} (h1 : -(2 ^ 31) ≤ x) (h2 : x < 2 ^ 31) :
    wrap32 x = x := by
  unfold wrap32
  omega

theorem truncQ_eq_of_nonneg {q : ℚ} {n : ℤ} (h0 : 0 ≤ n) (h1 : (n : ℚ) ≤ q)
    (h2 : q < n + 1) : truncQ q = n := by
  have hq : ¬ q < 0 := by
    have hn : (0 : ℚ) ≤ (n : ℚ) := by exact_mod_cast h0
    linarith
  unfold truncQ
  rw [if_neg hq, Int.floor_eq_iff]
  exact ⟨h1, by exact_mod_cast h2⟩

theorem truncQ_eq_of_nonpos {q : ℚ} {n : ℤ} (h0 : n ≤ 0) (h1 : (n : ℚ) - 1 < q)
    (h2 : q ≤ n) : truncQ q = n := by
  unfold truncQ
  by_cases hq : q < 0
  · rw [if_pos hq, Int.ceil_eq_iff]
    constructor
    · exact_mod_cast h1
    · exact h2
  · rw [if_neg hq]
    push_neg at hq
    have hn0 : (0 : ℚ) ≤ (n : ℚ) := le_trans hq h2
    have hn0' : (0 : ℤ) ≤ n := by exact_mod_cast hn0
    have : n = 0 := le_antisymm h0 hn0'
    subst this
    have hq0 : q = 0 := le_antisymm (by exact_mod_cast h2) hq
    simp [hq0]

namespace VirtualController

/-! ## `Source/VirtualController.cpp` -/

/-- Windows `ERROR_SUCCESS`. -/
def ERROR_SUCCESS : ℕ := 0

/-- Windows `ERROR_DEVICE_NOT_CONNECTED` (1167). -/
def ERROR_DEVICE_NOT_CONNECTED : ℕ := 1167

/-- Source function `MapValueInRangeToRange` (`VirtualController.cpp` line 37): linear
remap computed entirely in 32-bit signed arithmetic (all operands are
`int32_t`; every operation wraps on overflow, and the division truncates
toward zero). -/
def MapValueInRangeToRange (oldRangeValue oldRangeOrigin oldRangeDispMax
    newRangeOrigin newRangeDispMax : ℤ) : ℤ :=
  wrap32 (newRangeOrigin +
    (wrap32 (wrap32 (oldRangeValue - oldRangeOrigin) *
       wrap32 (newRangeDispMax - newRangeOrigin))).tdiv
      (wrap32 (oldRangeDispMax - oldRangeOrigin)))

/-- Modelled from the spec: the remap "must use a 64-bit accumulator for
the intermediate product" (§9, §4.1).  With all inputs in 32-bit range the
64-bit product and sum never overflow, so the 64-bit variant is plain
integer arithmetic with a truncating division. -/
def MapValueInRangeToRange64 (oldRangeValue oldRangeOrigin oldRangeDispMax
    newRangeOrigin newRangeDispMax : ℤ) : ℤ :=
  newRangeOrigin +
    ((oldRangeValue - oldRangeOrigin) * (newRangeDispMax - newRangeOrigin)).tdiv
      (oldRangeDispMax - oldRangeOrigin)

/-- Source structure `SStateIdentifier`: packet number and error code
memoised by the virtual controller. -/
structure SStateIdentifier where
  packetNumber : ℕ
  errorCode : ℕ
deriving DecidableEq

/-- The new state identifier computed at the top of
`VirtualController::RefreshState` (lines 100-112): the packet number is
taken from XInput only on `ERROR_SUCCESS` and is otherwise left at 0. -/
def refreshNewStateIdentifier (xinputErrorCode xinputPacketNumber : ℕ) :
    SStateIdentifier :=
  { packetNumber := if xinputErrorCode = ERROR_SUCCESS then xinputPacketNumber else 0
    errorCode := xinputErrorCode }

/-- The "state identifier is effectively the same" test of
`VirtualController::RefreshState` (line 144), exactly as written in the
source: packet numbers equal, OR a transition into `ERROR_SUCCESS`, OR a
transition out of `ERROR_SUCCESS`. -/
def refreshIdentifierSame (newId old : SStateIdentifier) : Bool :=
  (newId.packetNumber == old.packetNumber)
    || ((newId.errorCode == ERROR_SUCCESS) && !(old.errorCode == ERROR_SUCCESS))
    || (!(newId.errorCode == ERROR_SUCCESS) && (old.errorCode == ERROR_SUCCESS))

/-- The identifier phase of `RefreshState`: if the test at line 144 holds
the function returns `false` and the memoised `stateIdentifier` is left
untouched; otherwise the refresh proceeds and the new identifier is
installed (line 146). -/
def refreshStateIdentifierStep (old : SStateIdentifier)
    (xinputErrorCode xinputPacketNumber : ℕ) : Bool × SStateIdentifier :=
  let newId := refreshNewStateIdentifier xinputErrorCode xinputPacketNumber
  if refreshIdentifierSame newId old then (false, old) else (true, newId)

/-- The "no real change" condition as the specification states it
(§4.7 step 4): packet number unchanged AND the two error codes are either
both `SUCCESS` or both non-`SUCCESS`. -/
def specNoRealChange (newId old : SStateIdentifier) : Bool :=
  (newId.packetNumber == old.packetNumber)
    && ((newId.errorCode == ERROR_SUCCESS) == (old.errorCode == ERROR_SUCCESS))

end VirtualController

/-- C1: the source's refresh-change test is the claimed condition with the
conjunction replaced by a disjunction and the success-transition disjuncts
negated.  At the concrete input "memoised identifier {packet 7, SUCCESS},
source now reports DEVICE_NOT_CONNECTED" the code reports "no real change"
(returns false, keeps the memoised identifier) although the packet number
changed and the error code left SUCCESS; symmetrically for the transition
back into SUCCESS with a fresh packet number.  Both contradict the claim
(and the source's own comment at lines 141-143), so the claimed equivalence
fails in both directions. -/
theorem claim_C1 :
    (VirtualController.refreshStateIdentifierStep ⟨7, VirtualController.ERROR_SUCCESS⟩
        VirtualController.ERROR_DEVICE_NOT_CONNECTED 0 =
      (false, ⟨7, VirtualController.ERROR_SUCCESS⟩)
      ∧ VirtualController.specNoRealChange
          (VirtualController.refreshNewStateIdentifier
            VirtualController.ERROR_DEVICE_NOT_CONNECTED 0)
          ⟨7, VirtualController.ERROR_SUCCESS⟩ = false)
    ∧ (VirtualController.refreshStateIdentifierStep
          ⟨0, VirtualController.ERROR_DEVICE_NOT_CONNECTED⟩
          VirtualController.ERROR_SUCCESS 9 =
        (false, ⟨0, VirtualController.ERROR_DEVICE_NOT_CONNECTED⟩)
        ∧ VirtualController.specNoRealChange
            (VirtualController.refreshNewStateIdentifier
              VirtualController.ERROR_SUCCESS 9)
            ⟨0, VirtualController.ERROR_DEVICE_NOT_CONNECTED⟩ = false) := by
  constructor <;> constructor <;> decide

/-- C5: in `VirtualController.cpp` the intermediate product of the remap is
NOT carried in a 64-bit accumulator: all operands are `int32_t`, so at
`remap(32767, -32768, 32767, -32768, 32767)` the product 65535·65535
overflows 32-bit signed arithmetic, and the function returns −32770 instead
of the endpoint b1 = 32767.  The 64-bit accumulator the spec requires would
return the endpoint. -/
theorem claim_C5 :
    VirtualController.MapValueInRangeToRange 32767 (-32768) 32767 (-32768) 32767 = -32770
    ∧ VirtualController.MapValueInRangeToRange64 32767 (-32768) 32767 (-32768) 32767 = 32767
    ∧ VirtualController.MapValueInRangeToRange 32767 (-32768) 32767 (-32768) 32767 ≠ 32767 := by
  refine ⟨by decide, by decide, by decide⟩

namespace Mapper

/-! ## Mapper helpers (`src/unnamed/part_001`, i.e. `Mapper.cpp`)

The source performs the axis computations below in IEEE-754 `double`
arithmetic and casts the results back to integer types (truncation toward
zero).  The `double` arithmetic is modelled exactly over `ℚ`; at every
concrete input evaluated in this file the rational and the IEEE-754 double
computations yield the same truncated integer result. -/

/-- Modelled from the spec: `XInputController::kStickRangeMin` (§4.1,
stick raw range `[-32768, 32767]`; `XInputController.h` is not in `src`). -/
def kStickRangeMin : ℤ := -32768

/-- Modelled from the spec: `XInputController::kStickRangeMax` (§4.1). -/
def kStickRangeMax : ℤ := 32767

/-- Modelled from the spec: `XInputController::kTriggerRangeMin` (§4.1,
trigger raw range `[0, 255]`). -/
def kTriggerRangeMin : ℤ := 0

/-- Modelled from the spec: `XInputController::kTriggerRangeMax` (§4.1). -/
def kTriggerRangeMax : ℤ := 255

/-- Modelled from the spec: default axis range minimum (§3 Defaults;
`Mapper.h` is not in `src`). -/
def kDefaultAxisRangeMin : ℤ := -32768

/-- Modelled from the spec: default axis range maximum (§3 Defaults). -/
def kDefaultAxisRangeMax : ℤ := 32767

/-- Modelled from the spec: default deadzone 0 (§3 Defaults). -/
def kDefaultAxisDeadzone : ℕ := 0

/-- Modelled from the spec: default saturation = maximum, and the
fixed-point scale 0..10000 used literally in `ApplyAxisPropertiesToRawValue`
(§3, §4.3). -/
def kDefaultAxisSaturation : ℕ := 10000

/-- Per-axis properties of the `Mapper` class (`axisProperties` entries;
fields as used in `Mapper.cpp` lines 413-416). -/
structure SAxisProperties where
  rangeMin : ℤ
  rangeMax : ℤ
  deadzone : ℕ
  saturation : ℕ
deriving DecidableEq

/-- The axis-properties record produced by `InitializeAxisProperties`
(`Mapper.cpp` lines 403-419). -/
def defaultAxisProperties : SAxisProperties :=
  { rangeMin := kDefaultAxisRangeMin, rangeMax := kDefaultAxisRangeMax
    deadzone := kDefaultAxisDeadzone, saturation := kDefaultAxisSaturation }

/-- Source function `Mapper::MapValueInRangeToRange` (`Mapper.cpp` lines
491-502): computed via `double` arithmetic (modelled over `ℚ`), with the
final result cast back to `LONG` (truncation toward zero) and added to
`newMin` in 32-bit arithmetic.  The `LONG` subtractions feeding the
`double` casts wrap on overflow. -/
def MapValueInRangeToRange (originalValue originalMin originalMax newMin newMax : ℤ) : ℤ :=
  let originalSpread : ℚ := ((wrap32 (originalMax - originalMin) : ℤ) : ℚ)
  let originalFraction : ℚ := ((wrap32 (originalValue - originalMin) : ℤ) : ℚ) / originalSpread
  let newSpread : ℚ := ((wrap32 (newMax - newMin) : ℤ) : ℚ)
  wrap32 (truncQ (originalFraction * newSpread) + newMin)

/-- Source function `Mapper::InvertAxisValue` (`Mapper.cpp` lines 474-478):
the centre is computed with C integer division (truncation toward zero). -/
def InvertAxisValue (originalValue rangeMin rangeMax : ℤ) : ℤ :=
  let rangeCenter : ℤ := (wrap32 (rangeMax + rangeMin)).tdiv 2
  wrap32 (rangeCenter + wrap32 (rangeCenter - originalValue))

/-- Local `axisCenterPosition` of `Mapper::ApplyAxisPropertiesToRawValue`
(`Mapper.cpp` line 262): the `LONG` sum is cast to `double`. -/
def axisCenterPosition (p : SAxisProperties) : ℚ :=
  ((wrap32 (p.rangeMax + p.rangeMin) : ℤ) : ℚ) / 2

/-- Local `axisPhysicalRange` (`Mapper.cpp` line 263). -/
def axisPhysicalRange (p : SAxisProperties) : ℚ :=
  ((p.rangeMax : ℤ) : ℚ) - axisCenterPosition p

/-- Local `axisValueDisp` (`Mapper.cpp` line 264). -/
def axisValueDisp (p : SAxisProperties) (value : ℤ) : ℚ :=
  ((value : ℤ) : ℚ) - axisCenterPosition p

/-- The initial `axisValuePctRange` (`Mapper.cpp` line 269): displacement
as a fraction of the physical half-range, scaled to 0..10000 and cast to
an integer (truncation toward zero). -/
def axisValuePctRangeRaw (p : SAxisProperties) (value : ℤ) : ℤ :=
  truncQ (|axisValueDisp p value| / axisPhysicalRange p * 10000)

/-- The deadzone/saturation filtering of `axisValuePctRange`
(`Mapper.cpp` lines 270-275). -/
def axisValuePctRange (p : SAxisProperties) (value : ℤ) : ℤ :=
  let pct0 := axisValuePctRangeRaw p value
  if pct0 ≤ (p.deadzone : ℤ) then 0
  else if (p.saturation : ℤ) ≤ pct0 then 10000
  else MapValueInRangeToRange pct0 (p.deadzone : ℤ) (p.saturation : ℤ) 0 10000

/-- Source function `Mapper::ApplyAxisPropertiesToRawValue`
(`Mapper.cpp` lines 258-285), final value selection (lines 277-284). -/
def ApplyAxisPropertiesToRawValue (p : SAxisProperties) (value : ℤ) : ℤ :=
  if 0 < axisValueDisp p value then
    truncQ (axisCenterPosition p + axisPhysicalRange p * (((axisValuePctRange p value : ℤ) : ℚ) / 10000))
  else
    truncQ (axisCenterPosition p - axisPhysicalRange p * (((axisValuePctRange p value : ℤ) : ℚ) / 10000))

/-- The XInput physical elements (`EXInputControllerElement`). -/
inductive EXInputControllerElement
  | StickLeftHorizontal | StickLeftVertical | StickRightHorizontal | StickRightVertical
  | TriggerLT | TriggerRT | Dpad
  | ButtonA | ButtonB | ButtonX | ButtonY | ButtonLB | ButtonRB
  | ButtonBack | ButtonStart | ButtonLeftStick | ButtonRightStick
deriving DecidableEq

/-- Source function `Mapper::XInputTriggerSharedAxisDirection`
(`Mapper.cpp` lines 1783-1789): +1 for LT, −1 otherwise. -/
def XInputTriggerSharedAxisDirection (trigger : EXInputControllerElement) : ℤ :=
  if trigger = EXInputControllerElement.TriggerLT then 1 else -1

/-- The value written for a shared LT/RT trigger axis by
`Mapper::WriteApplicationControllerState` (`Mapper.cpp` lines 1423-1441):
normalise the direction multiplier, combine the raw triggers, remap from
`[-kTriggerRangeMax, kTriggerRangeMax]` into the axis range, then apply
the axis properties (via `WriteAxisValueToApplicationDataStructure`, line
539).  `none` models the `DIERR_GENERIC` return for direction 0. -/
def writeSharedTriggerAxisValue (p : SAxisProperties) (rawLT rawRT : ℕ) : Option ℤ :=
  let m0 := XInputTriggerSharedAxisDirection EXInputControllerElement.TriggerLT
  if m0 < 0 then
    some (sharedTriggerPipeline p (-1) rawLT rawRT)
  else if 0 < m0 then
    some (sharedTriggerPipeline p 1 rawLT rawRT)
  else
    none
where
  /-- Lines 1434-1441 with the normalised multiplier. -/
  sharedTriggerPipeline (p : SAxisProperties) (leftTriggerMultiplier : ℤ)
      (rawLT rawRT : ℕ) : ℤ :=
    let triggerSharedAxisValue : ℤ :=
      leftTriggerMultiplier * (rawLT : ℤ) + leftTriggerMultiplier * (-1) * (rawRT : ℤ)
    ApplyAxisPropertiesToRawValue p
      (MapValueInRangeToRange triggerSharedAxisValue (kTriggerRangeMax * (-1))
        kTriggerRangeMax p.rangeMin p.rangeMax)

/-- The value written for a vertical stick by
`Mapper::WriteApplicationControllerState` (`Mapper.cpp` line 1556):
invert, remap from the stick range into the axis range, then apply the
axis properties. -/
def writeVerticalStickAxisValue (p : SAxisProperties) (rawStick : ℤ) : ℤ :=
  ApplyAxisPropertiesToRawValue p
    (MapValueInRangeToRange (InvertAxisValue rawStick kStickRangeMin kStickRangeMax)
      kStickRangeMin kStickRangeMax p.rangeMin p.rangeMax)

end Mapper

/-! ## Concrete evaluations of the Mapper axis pipeline -/

theorem truncQ_intCast (n : ℤ) : truncQ ((n : ℤ) : ℚ) = n := by
  unfold truncQ
  split
  · exact Int.ceil_intCast n
  · exact Int.floor_intCast n

theorem truncQ_congr_intCast {q : ℚ} {n : ℤ} (h : q = ((n : ℤ) : ℚ)) : truncQ q = n := by
  rw [h, truncQ_intCast]

theorem default_rangeMin : Mapper.defaultAxisProperties.rangeMin = -32768 := rfl

theorem default_rangeMax : Mapper.defaultAxisProperties.rangeMax = 32767 := rfl

theorem default_deadzone : Mapper.defaultAxisProperties.deadzone = 0 := rfl

theorem default_saturation : Mapper.defaultAxisProperties.saturation = 10000 := rfl

theorem center_default : Mapper.axisCenterPosition Mapper.defaultAxisProperties = -(1/2) := by
  simp only [Mapper.axisCenterPosition, default_rangeMin, default_rangeMax]
  norm_num [wrap32]

theorem phys_default : Mapper.axisPhysicalRange Mapper.defaultAxisProperties = 65535/2 := by
  simp only [Mapper.axisPhysicalRange, center_default, default_rangeMax]
  norm_num

theorem disp_default (v : ℤ) : Mapper.axisValueDisp Mapper.defaultAxisProperties v = (v : ℚ) + 1/2 := by
  simp only [Mapper.axisValueDisp, center_default]
  ring

theorem mapQ_trig_pos : Mapper.MapValueInRangeToRange 255 (-255) 255 (-32768) 32767 = 32767 := by
  simp only [Mapper.MapValueInRangeToRange]
  norm_num [wrap32]
  rw [truncQ_eq_of_nonneg (show (0:ℤ) ≤ 65535 by norm_num) (by norm_num) (by norm_num)]
  norm_num

theorem mapQ_trig_neg : Mapper.MapValueInRangeToRange (-255) (-255) 255 (-32768) 32767 = -32768 := by
  simp only [Mapper.MapValueInRangeToRange]
  norm_num [wrap32]
  rw [truncQ_eq_of_nonneg (show (0:ℤ) ≤ 0 by norm_num) (by norm_num) (by norm_num)]
  norm_num

theorem mapQ_trig_mid : Mapper.MapValueInRangeToRange 0 (-255) 255 (-32768) 32767 = -1 := by
  simp only [Mapper.MapValueInRangeToRange]
  norm_num [wrap32]
  rw [truncQ_eq_of_nonneg (show (0:ℤ) ≤ 32767 by norm_num) (by norm_num) (by norm_num)]
  norm_num

theorem mapQ_stick_neg32767 : Mapper.MapValueInRangeToRange (-32767) (-32768) 32767 (-32768) 32767 = -32767 := by
  simp only [Mapper.MapValueInRangeToRange]
  norm_num [wrap32]
  rw [truncQ_eq_of_nonneg (show (0:ℤ) ≤ 1 by norm_num) (by norm_num) (by norm_num)]
  norm_num

theorem mapQ_stick_32768 : Mapper.MapValueInRangeToRange 32768 (-32768) 32767 (-32768) 32767 = 32768 := by
  simp only [Mapper.MapValueInRangeToRange]
  norm_num [wrap32]
  rw [truncQ_eq_of_nonneg (show (0:ℤ) ≤ 65536 by norm_num) (by norm_num) (by norm_num)]
  norm_num

theorem mapQ_9999 : Mapper.MapValueInRangeToRange 9999 0 10000 0 10000 = 9999 := by
  simp only [Mapper.MapValueInRangeToRange]
  norm_num [wrap32]
  rw [truncQ_eq_of_nonneg (show (0:ℤ) ≤ 9999 by norm_num) (by norm_num) (by norm_num)]
  norm_num

theorem pctraw_default_32767 : Mapper.axisValuePctRangeRaw Mapper.defaultAxisProperties 32767 = 10000 := by
  simp only [Mapper.axisValuePctRangeRaw, disp_default, phys_default]
  apply truncQ_congr_intCast
  rw [abs_of_nonneg (by norm_num : (0:ℚ) ≤ ((32767 : ℤ) : ℚ) + 1/2)]
  push_cast
  norm_num

theorem pctraw_default_neg32768 : Mapper.axisValuePctRangeRaw Mapper.defaultAxisProperties (-32768) = 10000 := by
  simp only [Mapper.axisValuePctRangeRaw, disp_default, phys_default]
  apply truncQ_congr_intCast
  rw [abs_of_nonpos (by norm_num : ((-32768 : ℤ) : ℚ) + 1/2 ≤ 0)]
  push_cast
  norm_num

theorem pctraw_default_neg1 : Mapper.axisValuePctRangeRaw Mapper.defaultAxisProperties (-1) = 0 := by
  simp only [Mapper.axisValuePctRangeRaw, disp_default, phys_default]
  apply truncQ_eq_of_nonneg (by norm_num)
  · rw [abs_of_nonpos (by norm_num : ((-1 : ℤ) : ℚ) + 1/2 ≤ 0)]
    push_cast
    norm_num
  · rw [abs_of_nonpos (by norm_num : ((-1 : ℤ) : ℚ) + 1/2 ≤ 0)]
    push_cast
    norm_num

theorem pctraw_default_neg32767 : Mapper.axisValuePctRangeRaw Mapper.defaultAxisProperties (-32767) = 9999 := by
  simp only [Mapper.axisValuePctRangeRaw, disp_default, phys_default]
  apply truncQ_eq_of_nonneg (by norm_num)
  · rw [abs_of_nonpos (by norm_num : ((-32767 : ℤ) : ℚ) + 1/2 ≤ 0)]
    push_cast
    norm_num
  · rw [abs_of_nonpos (by norm_num : ((-32767 : ℤ) : ℚ) + 1/2 ≤ 0)]
    push_cast
    norm_num

theorem pctraw_default_32768 : Mapper.axisValuePctRangeRaw Mapper.defaultAxisProperties 32768 = 10000 := by
  simp only [Mapper.axisValuePctRangeRaw, disp_default, phys_default]
  apply truncQ_eq_of_nonneg (by norm_num)
  · rw [abs_of_nonneg (by norm_num : (0:ℚ) ≤ ((32768 : ℤ) : ℚ) + 1/2)]
    push_cast
    norm_num
  · rw [abs_of_nonneg (by norm_num : (0:ℚ) ≤ ((32768 : ℤ) : ℚ) + 1/2)]
    push_cast
    norm_num

theorem pct_default_32767 : Mapper.axisValuePctRange Mapper.defaultAxisProperties 32767 = 10000 := by
  simp only [Mapper.axisValuePctRange, pctraw_default_32767, default_deadzone, default_saturation]
  norm_num

theorem pct_default_neg32768 : Mapper.axisValuePctRange Mapper.defaultAxisProperties (-32768) = 10000 := by
  simp only [Mapper.axisValuePctRange, pctraw_default_neg32768, default_deadzone, default_saturation]
  norm_num

theorem pct_default_neg1 : Mapper.axisValuePctRange Mapper.defaultAxisProperties (-1) = 0 := by
  simp only [Mapper.axisValuePctRange, pctraw_default_neg1, default_deadzone, default_saturation]
  norm_num

theorem pct_default_neg32767 : Mapper.axisValuePctRange Mapper.defaultAxisProperties (-32767) = 9999 := by
  simp only [Mapper.axisValuePctRange, pctraw_default_neg32767, default_deadzone, default_saturation]
  norm_num [mapQ_9999]

theorem pct_default_32768 : Mapper.axisValuePctRange Mapper.defaultAxisProperties 32768 = 10000 := by
  simp only [Mapper.axisValuePctRange, pctraw_default_32768, default_deadzone, default_saturation]
  norm_num

theorem apply_default_32767 : Mapper.ApplyAxisPropertiesToRawValue Mapper.defaultAxisProperties 32767 = 32767 := by
  simp only [Mapper.ApplyAxisPropertiesToRawValue, disp_default, center_default, phys_default,
    pct_default_32767]
  rw [if_pos (by norm_num : (0:ℚ) < ((32767 : ℤ) : ℚ) + 1/2)]
  apply truncQ_congr_intCast
  push_cast
  norm_num

theorem apply_default_neg32768 : Mapper.ApplyAxisPropertiesToRawValue Mapper.defaultAxisProperties (-32768) = -32768 := by
  simp only [Mapper.ApplyAxisPropertiesToRawValue, disp_default, center_default, phys_default,
    pct_default_neg32768]
  rw [if_neg (by norm_num : ¬ (0:ℚ) < ((-32768 : ℤ) : ℚ) + 1/2)]
  apply truncQ_congr_intCast
  push_cast
  norm_num

theorem apply_default_neg1 : Mapper.ApplyAxisPropertiesToRawValue Mapper.defaultAxisProperties (-1) = 0 := by
  simp only [Mapper.ApplyAxisPropertiesToRawValue, disp_default, center_default, phys_default,
    pct_default_neg1]
  rw [if_neg (by norm_num : ¬ (0:ℚ) < ((-1 : ℤ) : ℚ) + 1/2)]
  apply truncQ_eq_of_nonpos (by norm_num) <;> push_cast <;> norm_num

theorem apply_default_neg32767 : Mapper.ApplyAxisPropertiesToRawValue Mapper.defaultAxisProperties (-32767) = -32764 := by
  simp only [Mapper.ApplyAxisPropertiesToRawValue, disp_default, center_default, phys_default,
    pct_default_neg32767]
  rw [if_neg (by norm_num : ¬ (0:ℚ) < ((-32767 : ℤ) : ℚ) + 1/2)]
  apply truncQ_eq_of_nonpos (by norm_num) <;> push_cast <;> norm_num

theorem apply_default_32768 : Mapper.ApplyAxisPropertiesToRawValue Mapper.defaultAxisProperties 32768 = 32767 := by
  simp only [Mapper.ApplyAxisPropertiesToRawValue, disp_default, center_default, phys_default,
    pct_default_32768]
  rw [if_pos (by norm_num : (0:ℚ) < ((32768 : ℤ) : ℚ) + 1/2)]
  apply truncQ_congr_intCast
  push_cast
  norm_num

theorem sharedTrigger_255_0 :
    Mapper.writeSharedTriggerAxisValue Mapper.defaultAxisProperties 255 0 = some 32767 := by
  simp only [Mapper.writeSharedTriggerAxisValue, Mapper.XInputTriggerSharedAxisDirection,
    Mapper.writeSharedTriggerAxisValue.sharedTriggerPipeline, Mapper.kTriggerRangeMax,
    default_rangeMin, default_rangeMax]
  norm_num [mapQ_trig_pos, apply_default_32767]

theorem sharedTrigger_0_255 :
    Mapper.writeSharedTriggerAxisValue Mapper.defaultAxisProperties 0 255 = some (-32768) := by
  simp only [Mapper.writeSharedTriggerAxisValue, Mapper.XInputTriggerSharedAxisDirection,
    Mapper.writeSharedTriggerAxisValue.sharedTriggerPipeline, Mapper.kTriggerRangeMax,
    default_rangeMin, default_rangeMax]
  norm_num [mapQ_trig_neg, apply_default_neg32768]

theorem sharedTrigger_128_128 :
    Mapper.writeSharedTriggerAxisValue Mapper.defaultAxisProperties 128 128 = some 0 := by
  simp only [Mapper.writeSharedTriggerAxisValue, Mapper.XInputTriggerSharedAxisDirection,
    Mapper.writeSharedTriggerAxisValue.sharedTriggerPipeline, Mapper.kTriggerRangeMax,
    default_rangeMin, default_rangeMax]
  norm_num [mapQ_trig_mid, apply_default_neg1]

theorem verticalStick_32767 :
    Mapper.writeVerticalStickAxisValue Mapper.defaultAxisProperties 32767 = -32764 := by
  simp only [Mapper.writeVerticalStickAxisValue, Mapper.kStickRangeMin, Mapper.kStickRangeMax,
    default_rangeMin, default_rangeMax]
  rw [show Mapper.InvertAxisValue 32767 (-32768) 32767 = -32767 by decide]
  rw [mapQ_stick_neg32767, apply_default_neg32767]

theorem verticalStick_neg32768 :
    Mapper.writeVerticalStickAxisValue Mapper.defaultAxisProperties (-32768) = 32767 := by
  simp only [Mapper.writeVerticalStickAxisValue, Mapper.kStickRangeMin, Mapper.kStickRangeMax,
    default_rangeMin, default_rangeMax]
  rw [show Mapper.InvertAxisValue (-32768) (-32768) 32767 = 32768 by decide]
  rw [mapQ_stick_32768, apply_default_32768]

/-- C3 (counterexample): under the shared-trigger profile with default
range/deadzone/saturation, rawLT = 0, rawRT = 255 does NOT yield −32767 as
the claim states: the remap maps s = −255 to the range minimum −32768, and
the transform keeps it there. -/
theorem claim_C3_counterexample :
    Mapper.writeSharedTriggerAxisValue Mapper.defaultAxisProperties 0 255 ≠ some (-32767) := by
  rw [sharedTrigger_0_255]
  intro h
  exact absurd (Option.some.inj h) (by norm_num)

/-- C3 (amended): under the default range `[-32768, 32767]`, deadzone 0 and
saturation 10000, the immediate-state writer computes the shared trigger
axis as s = m·rawLT + (−m)·rawRT remapped from `[-255, 255]` into the axis
range and then transformed, so that rawLT=255, rawRT=0 yields +32767;
rawLT=0, rawRT=255 yields −32768 (the range minimum, not −32767); and
rawLT=rawRT=128 yields exactly 0. -/
theorem claim_C3 :
    Mapper.writeSharedTriggerAxisValue Mapper.defaultAxisProperties 255 0 = some 32767
    ∧ Mapper.writeSharedTriggerAxisValue Mapper.defaultAxisProperties 0 255 = some (-32768)
    ∧ Mapper.writeSharedTriggerAxisValue Mapper.defaultAxisProperties 128 128 = some 0 :=
  ⟨sharedTrigger_255_0, sharedTrigger_0_255, sharedTrigger_128_128⟩

/-- C4 (counterexample): with the default range, deadzone 0 and saturation
10000, a raw vertical stick value of +32767 does NOT produce −32768 as the
claim states.  The inversion uses the truncated centre `(lo+hi)/2 = 0`
(so the inverted value is −32767, not `lo+hi−v = −32768`), and the
percentage-scale truncation in the transform then yields −32764. -/
theorem claim_C4_counterexample :
    Mapper.writeVerticalStickAxisValue Mapper.defaultAxisProperties 32767 ≠ -32768 := by
  rw [verticalStick_32767]
  norm_num

/-- C4 (amended): vertical stick values are inverted with
invert(v, lo, hi) = c + (c − v) where c = (lo+hi)/2 with C truncating
division — for the default stick range this is c = 0, i.e. invert(v) = −v,
one off from the claimed lo + hi − v.  Under the default range, deadzone 0
and saturation 10000, raw +32767 produces −32764 (after the transform's
percentage truncation), and raw −32768 produces +32767. -/
theorem claim_C4 :
    (∀ v : ℤ, -32768 ≤ v → v ≤ 32768 →
      Mapper.InvertAxisValue v Mapper.kStickRangeMin Mapper.kStickRangeMax = -v)
    ∧ Mapper.writeVerticalStickAxisValue Mapper.defaultAxisProperties 32767 = -32764
    ∧ Mapper.writeVerticalStickAxisValue Mapper.defaultAxisProperties (-32768) = 32767 := by
  refine ⟨?_, verticalStick_32767, verticalStick_neg32768⟩
  intro v h1 h2
  simp only [Mapper.InvertAxisValue, Mapper.kStickRangeMin, Mapper.kStickRangeMax]
  rw [show wrap32 (32767 + -32768) = -1 by decide]
  rw [show ((-1 : ℤ).tdiv 2) = 0 by decide]
  rw [show (0 : ℤ) - v = -v by ring]
  rw [show wrap32 (-v) = -v from wrap32_eq_self (by omega) (by omega)]
  rw [show (0 : ℤ) + -v = -v by ring]
  rw [show wrap32 (-v) = -v from wrap32_eq_self (by omega) (by omega)]

/-- C4 (witness for the amended theorem): the inversion clause applied at
the concrete raw value +32767 gives −32767. -/
theorem claim_C4_witness :
    Mapper.InvertAxisValue 32767 Mapper.kStickRangeMin Mapper.kStickRangeMax = -32767 :=
  claim_C4.1 32767 (by norm_num) (by norm_num)

namespace VirtualController

/-! ## Locking structure of `GetState` / `RefreshState` -/

/-- An operation on the single `controllerMutex` of the virtual
controller. -/
inductive MutexOp
  | acquire
  | release
deriving DecidableEq

/-- The `controllerMutex` operations performed by
`VirtualController::RefreshState`: the `std::scoped_lock` at line 103
acquires on entry to the locked block and releases when the function
returns. -/
def refreshStateLockOps : List MutexOp := [MutexOp.acquire, MutexOp.release]

/-- The `controllerMutex` operations performed by
`VirtualController::GetState` (lines 85-94): the `std::scoped_lock` at
line 87 is held for the whole body, and if `stateRefreshNeeded` is true
the body invokes `RefreshState` (line 90) while still holding it. -/
def getStateLockOps (stateRefreshNeeded : Bool) : List MutexOp :=
  [MutexOp.acquire]
    ++ (if stateRefreshNeeded then refreshStateLockOps else [])
    ++ [MutexOp.release]

/-- Given the current hold depth, does the trace ever acquire the mutex
while the same thread already holds it? -/
def acquiresWhileHeld : List MutexOp → ℕ → Bool
  | [], _ => false
  | MutexOp.acquire :: rest, d => decide (1 ≤ d) || acquiresWhileHeld rest (d + 1)
  | MutexOp.release :: rest, d => acquiresWhileHeld rest (d - 1)

end VirtualController

/-- C8: `GetState` acquires `controllerMutex` and, whenever
`stateRefreshNeeded` is true (which is the case after every previous
`GetState`, line 93), calls `RefreshState`, which acquires the very same
mutex again at line 103 — a nested acquisition by the thread already
holding it, contradicting the claimed locking discipline.  Without the
`RefreshState` call (second and third conjuncts) no nesting occurs, so the
nesting comes exactly from the `GetState → RefreshState` path. -/
theorem claim_C8 :
    VirtualController.acquiresWhileHeld (VirtualController.getStateLockOps true) 0 = true
    ∧ VirtualController.acquiresWhileHeld (VirtualController.getStateLockOps false) 0 = false
    ∧ VirtualController.acquiresWhileHeld VirtualController.refreshStateLockOps 0 = false := by
  refine ⟨by decide, by decide, by decide⟩

namespace Mapper

/-! ## `Mapper::CheckAndSetOffsets` (`Mapper.cpp` lines 339-348)

The `BOOL*` segment handed to the function is modelled as a total map
`ℕ → Bool` together with the base index and entry count. -/

/-- The first loop of `Mapper::CheckAndSetOffsets`: scan `base[0..count)`
and report whether every entry is still `FALSE`. -/
def offsetsAllClear (base : ℕ → Bool) : ℕ → ℕ → Bool
  | _, 0 => true
  | start, n + 1 => if base start then false else offsetsAllClear base (start + 1) n

/-- The second loop of `Mapper::CheckAndSetOffsets`: set all `count`
entries to `TRUE`. -/
def setOffsetsTrue : (ℕ → Bool) → ℕ → ℕ → (ℕ → Bool)
  | base, _, 0 => base
  | base, start, n + 1 =>
    setOffsetsTrue (fun k => if k = start then true else base k) (start + 1) n

/-- Source function `Mapper::CheckAndSetOffsets`: return `FALSE` without
writing if any entry is already `TRUE`, else claim all entries and return
`TRUE`. -/
def CheckAndSetOffsets (base : ℕ → Bool) (start count : ℕ) : Bool × (ℕ → Bool) :=
  if offsetsAllClear base start count then (true, setOffsetsTrue base start count)
  else (false, base)

theorem offsetsAllClear_iff (base : ℕ → Bool) :
    ∀ count start, offsetsAllClear base start count = true
      ↔ ∀ i, i < count → base (start + i) = false := by
  intro count
  induction count with
  | zero =>
    intro start
    constructor
    · intro _ i hi
      exact absurd hi (Nat.not_lt_zero i)
    · intro _
      rfl
  | succ n ih =>
    intro start
    cases hb : base start with
    | true =>
      constructor
      · intro h
        exfalso
        simp [offsetsAllClear, hb] at h
      · intro h
        exfalso
        have h0 := h 0 (Nat.succ_pos n)
        rw [Nat.add_zero, hb] at h0
        simp at h0
    | false =>
      have hstep : offsetsAllClear base start (n + 1) = offsetsAllClear base (start + 1) n := by
        simp [offsetsAllClear, hb]
      rw [hstep, ih (start + 1)]
      constructor
      · intro h i hi
        cases i with
        | zero => simpa using hb
        | succ j =>
          have hj := h j (by omega)
          rw [show start + (j + 1) = start + 1 + j by omega]
          exact hj
      · intro h i hi
        have hi1 := h (i + 1) (by omega)
        rw [show start + 1 + i = start + (i + 1) by omega]
        exact hi1

theorem setOffsetsTrue_apply :
    ∀ count (base : ℕ → Bool) start k,
      setOffsetsTrue base start count k
        = if start ≤ k ∧ k < start + count then true else base k := by
  intro count
  induction count with
  | zero =>
    intro base start k
    simp only [setOffsetsTrue]
    rw [if_neg (by omega)]
  | succ n ih =>
    intro base start k
    simp only [setOffsetsTrue]
    rw [ih]
    by_cases h1 : start + 1 ≤ k ∧ k < start + 1 + n
    · rw [if_pos h1, if_pos (by omega)]
    · rw [if_neg h1]
      by_cases hk : k = start
      · rw [if_pos hk, if_pos (by omega)]
      · rw [if_neg hk, if_neg (by omega)]

end Mapper

/-- C9: `CheckAndSetOffsets` is all-or-nothing over the segment
`base[start .. start+count)`: if any entry is already `TRUE` it returns
`FALSE` leaving every entry unchanged; otherwise it sets exactly the
`count` entries of the segment to `TRUE` and returns `TRUE`. -/
theorem claim_C9 (base : ℕ → Bool) (start count : ℕ) :
    ((∃ i, i < count ∧ base (start + i) = true) →
      Mapper.CheckAndSetOffsets base start count = (false, base))
    ∧ ((∀ i, i < count → base (start + i) = false) →
      Mapper.CheckAndSetOffsets base start count
        = (true, fun k => if start ≤ k ∧ k < start + count then true else base k)) := by
  constructor
  · rintro ⟨i, hi, hbase⟩
    unfold Mapper.CheckAndSetOffsets
    rw [if_neg]
    intro hclear
    have := (Mapper.offsetsAllClear_iff base count start).1 hclear i hi
    rw [this] at hbase
    exact absurd hbase (by simp)
  · intro h
    unfold Mapper.CheckAndSetOffsets
    rw [if_pos ((Mapper.offsetsAllClear_iff base count start).2 h)]
    refine congrArg _ ?_
    funext k
    exact Mapper.setOffsetsTrue_apply count base start k

/-- C9 (witness): a segment whose third entry is already claimed makes the
call fail and leaves the array untouched. -/
theorem claim_C9_witness :
    Mapper.CheckAndSetOffsets (fun k => k == 2) 0 4 = (false, fun k => k == 2) :=
  (claim_C9 (fun k => k == 2) 0 4).1 ⟨2, by omega, by decide⟩

namespace Mapper

/-! ## Data-format binder (`Mapper::SetApplicationDataFormat`,
`Mapper.cpp` lines 864-1115)

DirectInput SDK constants (`dinput.h`) are defined with their real values.
The `Mapper` subclass lookup tables (object counts, axis-identity lookup)
and the constants of the absent header `Mapper.h` are modelled from the
spec and passed in a `MapperProfile` record. -/

/-- DirectInput SDK constant `DIDFT_ABSAXIS`. -/
def DIDFT_ABSAXIS : ℕ := 2

/-- DirectInput SDK constant `DIDFT_PSHBUTTON`. -/
def DIDFT_PSHBUTTON : ℕ := 4

/-- DirectInput SDK constant `DIDFT_POV`. -/
def DIDFT_POV : ℕ := 16

/-- DirectInput SDK constant `DIDFT_ANYINSTANCE` (0x00FFFF00). -/
def DIDFT_ANYINSTANCE : ℕ := 0x00FFFF00

/-- DirectInput SDK constant `DIDFT_INSTANCEMASK` (0x00FFFF00). -/
def DIDFT_INSTANCEMASK : ℕ := 0x00FFFF00

/-- DirectInput SDK macro `DIDFT_GETINSTANCE`: low word of the value
shifted right by 8. -/
def DIDFT_GETINSTANCE (n : ℕ) : ℕ := (n >>> 8) &&& 0xFFFF

/-- HRESULT `S_OK`. -/
def S_OK : ℕ := 0

/-- HRESULT `DIERR_INVALIDPARAM` (= `E_INVALIDARG`, 0x80070057). -/
def DIERR_INVALIDPARAM : ℕ := 0x80070057

/-- Modelled from the spec: `EInstanceType::InstanceTypeAxis`.  The kinds
are ordered {Axis, Button, POV} (§3, `EVKind`); `Mapper.h` is not in
`src`. -/
def InstanceTypeAxis : ℕ := 0

/-- Modelled from the spec: `EInstanceType::InstanceTypeButton`. -/
def InstanceTypeButton : ℕ := 1

/-- Modelled from the spec: `EInstanceType::InstanceTypePov`. -/
def InstanceTypePov : ℕ := 2

/-- Modelled from the spec: `Mapper::MakeInstanceIdentifier` packs the
pair (kind, index) of §3 into one `TInstance` as
`(type << 16) | index`; for the valid indices `0 ≤ index < 2^16` produced
by `SelectInstance` the bit-or equals the sum.  All valid identifiers are
nonnegative; the sentinel for "absent" is −1 (consistent with every
`>= 0` / `< 0` validity test in `Mapper.cpp`). -/
def MakeInstanceIdentifier (instanceType : ℕ) (instanceNumber : ℤ) : ℤ :=
  (instanceType : ℤ) * 65536 + instanceNumber

/-- Source function `SizeofInstance` (`Mapper.cpp` lines 181-198): axes
and POVs take `sizeof(LONG)` = 4 bytes, buttons `sizeof(BYTE)` = 1. -/
def SizeofInstance (instanceType : ℕ) : ℕ :=
  if instanceType = InstanceTypeAxis then 4
  else if instanceType = InstanceTypePov then 4
  else if instanceType = InstanceTypeButton then 1
  else 0

/-- The GUIDs the data-format code distinguishes. -/
inductive DIGUID
  | xAxis | yAxis | zAxis | rxAxis | ryAxis | rzAxis
  | slider | button | key | pov | unknown
deriving DecidableEq

/-- Modelled from the spec: the per-profile lookup tables (§4.2) and the
`kMaxDataPacketSize` bound (§4.4 `MAX_PACKET`), i.e. the virtual methods
and constants of the absent `Mapper.h`.  `axisInstanceIndex g n` is the
subclass `AxisInstanceIndex`: the index of the `n`-th axis whose semantic
identity is `g`, or negative if there is none. -/
structure MapperProfile where
  numAxes : ℕ
  numButtons : ℕ
  numPov : ℕ
  axisInstanceIndex : DIGUID → ℤ → ℤ
  kMaxDataPacketSize : ℕ

/-- One `DIOBJECTDATAFORMAT` entry of the application's requested data
format: optional GUID, byte offset, and the `dwType` selector word. -/
structure DIOBJECTDATAFORMAT where
  pguid : Option DIGUID
  dwOfs : ℕ
  dwType : ℕ
deriving DecidableEq

/-- The members of `DIDATAFORMAT` that `SetApplicationDataFormat` reads:
the packet size and the object request list (`dwNumObjs` is the list
length). -/
structure DIDATAFORMAT where
  dwDataSize : ℕ
  rgodf : List DIOBJECTDATAFORMAT
deriving DecidableEq

/-- The data-format state of the `Mapper` class that
`SetApplicationDataFormat` / `ResetApplicationDataFormat` mutate
(`Mapper.cpp` line 204): packet size, the two offset maps, the per-kind
unused-offset sets, and the `mapsValid` flag. -/
structure MapperState where
  dataPacketSize : ℕ
  instanceToOffset : List (ℤ × ℕ)
  offsetToInstance : List (ℕ × ℤ)
  axisOffsetsUnused : List ℕ
  buttonOffsetsUnused : List ℕ
  povOffsetsUnused : List ℕ
  mapsValid : Bool
deriving DecidableEq

/-- Insertion into the `instanceToOffset` `unordered_map`
(`std::unordered_map::insert` does not replace an existing key). -/
def insertInstanceToOffset (l : List (ℤ × ℕ)) (k : ℤ) (v : ℕ) : List (ℤ × ℕ) :=
  match l.lookup k with
  | some _ => l
  | none => (k, v) :: l

/-- Insertion into the `offsetToInstance` `unordered_map`. -/
def insertOffsetToInstance (l : List (ℕ × ℤ)) (k : ℕ) (v : ℤ) : List (ℕ × ℤ) :=
  match l.lookup k with
  | some _ => l
  | none => (k, v) :: l

/-- Insertion into an `unordered_set` of offsets. -/
def insertSet (l : List ℕ) (x : ℕ) : List ℕ :=
  if l.contains x then l else x :: l

/-- Source function `Mapper::MapInstanceAndOffset` (`Mapper.cpp` lines
482-487): record the mapping in both directions. -/
def MapInstanceAndOffset (s : MapperState) (inst : ℤ) (offset : ℕ) : MapperState :=
  { s with
    instanceToOffset := insertInstanceToOffset s.instanceToOffset inst offset
    offsetToInstance := insertOffsetToInstance s.offsetToInstance offset inst }

/-- Source function `Mapper::SelectInstance` (`Mapper.cpp` lines 518-529):
mark and return the requested instance if it is within range and unused,
else the sentinel −1.  The mutated used-array is returned alongside. -/
def SelectInstance (instanceType : ℕ) (instanceUsed : ℕ → Bool)
    (instanceCount : ℕ) (instanceToSelect : ℤ) : ℤ × (ℕ → Bool) :=
  if 0 ≤ instanceToSelect ∧ instanceToSelect < (instanceCount : ℤ)
      ∧ instanceUsed instanceToSelect.toNat = false then
    (MakeInstanceIdentifier instanceType instanceToSelect,
     fun n => if n = instanceToSelect.toNat then true else instanceUsed n)
  else ((-1 : ℤ), instanceUsed)

/-- The local arrays and next-unused counters of
`SetApplicationDataFormat` (`Mapper.cpp` lines 892-905). -/
structure BinderArrays where
  buttonUsed : ℕ → Bool
  axisUsed : ℕ → Bool
  povUsed : ℕ → Bool
  offsetUsed : ℕ → Bool
  nextUnusedButton : ℕ
  nextUnusedAxis : ℕ
  nextUnusedPov : ℕ

/-- The freshly initialised arrays (all `FALSE`, counters 0). -/
def initBinderArrays : BinderArrays :=
  { buttonUsed := fun _ => false, axisUsed := fun _ => false
    povUsed := fun _ => false, offsetUsed := fun _ => false
    nextUnusedButton := 0, nextUnusedAxis := 0, nextUnusedPov := 0 }

/-- One of the next-unused-increment loops (`Mapper.cpp` lines
1102-1104): advance `n` while `used[n]` is `TRUE` and `n < num`.  The
counter can only advance while below `num`, so `num + 1` steps of fuel
always suffice; the fuel only makes the recursion structural. -/
def advanceNextUnused (used : ℕ → Bool) (num : ℕ) : ℕ → ℕ → ℕ
  | 0, n => n
  | fuel + 1, n =>
    if used n = true ∧ n < num then advanceNextUnused used num fuel (n + 1) else n

/-- The while loop of the axis branch for a specific axis GUID with "any
instance" allowed (`Mapper.cpp` lines 958-967): try successive axes of the
requested identity until one is selected or the identity lookup reports no
further axis.  Returns (selected identifier, last `axisIndex`, used
array).  By the subclass contract `axisInstanceIndex` is negative once the
instance number exceeds the number of axes, so `numAxes + 2` steps of fuel
always suffice; fuel exhaustion is modelled as leaving the loop without a
selection. -/
def axisGuidAnyLoop (prof : MapperProfile) (g : DIGUID) :
    (ℕ → Bool) → ℕ → ℤ → ℤ × ℤ × (ℕ → Bool)
  | axisUsed, 0, _ => ((-1 : ℤ), (-1 : ℤ), axisUsed)
  | axisUsed, fuel + 1, instanceIndex =>
    let axisIndex := prof.axisInstanceIndex g instanceIndex
    let r := SelectInstance InstanceTypeAxis axisUsed prof.numAxes axisIndex
    if r.1 < 0 ∧ 0 ≤ axisIndex then
      axisGuidAnyLoop prof g r.2 fuel (instanceIndex + 1)
    else
      (r.1, axisIndex, r.2)

/-- One iteration of the object-request loop of
`SetApplicationDataFormat` (`Mapper.cpp` lines 908-1099), excluding the
final next-unused-counter advancement.  `none` models
`invalidParamsDetected == TRUE` (no map or unused-set change is ever made
on such a path; the local arrays are discarded by the caller). -/
def processObjectDataFormat (prof : MapperProfile) (dataSize : ℕ)
    (dataFormat : DIOBJECTDATAFORMAT) (s : MapperState) (ar : BinderArrays) :
    Option (MapperState × BinderArrays) :=
  let allowAnyInstance := (dataFormat.dwType &&& DIDFT_INSTANCEMASK) = DIDFT_ANYINSTANCE
  let specificInstance : ℤ := toShort16 (DIDFT_GETINSTANCE dataFormat.dwType)
  if dataFormat.dwType &&& DIDFT_ABSAXIS ≠ 0 then
    if ¬ (dataFormat.dwOfs + SizeofInstance InstanceTypeAxis ≤ dataSize) then none
    else
      let c := CheckAndSetOffsets ar.offsetUsed dataFormat.dwOfs (SizeofInstance InstanceTypeAxis)
      if c.1 = false then none
      else
        let ar1 := { ar with offsetUsed := c.2 }
        match dataFormat.pguid with
        | none =>
          let instanceToSelect : ℤ :=
            if allowAnyInstance then (ar1.nextUnusedAxis : ℤ) else specificInstance
          let r := SelectInstance InstanceTypeAxis ar1.axisUsed prof.numAxes instanceToSelect
          let ar2 := { ar1 with axisUsed := r.2 }
          if 0 ≤ r.1 then some (MapInstanceAndOffset s r.1 dataFormat.dwOfs, ar2)
          else if ¬ allowAnyInstance then none
          else some ({ s with axisOffsetsUnused := insertSet s.axisOffsetsUnused dataFormat.dwOfs }, ar2)
        | some g =>
          if allowAnyInstance then
            let r := axisGuidAnyLoop prof g ar1.axisUsed (prof.numAxes + 2) 0
            let ar2 := { ar1 with axisUsed := r.2.2 }
            if 0 ≤ r.1 then
              some (MapInstanceAndOffset s
                (MakeInstanceIdentifier InstanceTypeAxis r.2.1) dataFormat.dwOfs, ar2)
            else
              some ({ s with axisOffsetsUnused := insertSet s.axisOffsetsUnused dataFormat.dwOfs }, ar2)
          else
            let axisIndex := prof.axisInstanceIndex g specificInstance
            let r := SelectInstance InstanceTypeAxis ar1.axisUsed prof.numAxes axisIndex
            let ar2 := { ar1 with axisUsed := r.2 }
            if 0 ≤ r.1 then some (MapInstanceAndOffset s r.1 dataFormat.dwOfs, ar2)
            else none
  else if dataFormat.dwType &&& DIDFT_PSHBUTTON ≠ 0 then
    if ¬ (dataFormat.dwOfs + SizeofInstance InstanceTypeButton ≤ dataSize) then none
    else
      let c := CheckAndSetOffsets ar.offsetUsed dataFormat.dwOfs (SizeofInstance InstanceTypeButton)
      if c.1 = false then none
      else
        let ar1 := { ar with offsetUsed := c.2 }
        if dataFormat.pguid = none ∨ dataFormat.pguid = some DIGUID.button then
          let instanceToSelect : ℤ :=
            if allowAnyInstance then (ar1.nextUnusedButton : ℤ) else specificInstance
          let r := SelectInstance InstanceTypeButton ar1.buttonUsed prof.numButtons instanceToSelect
          let ar2 := { ar1 with buttonUsed := r.2 }
          if 0 < r.1 then some (MapInstanceAndOffset s r.1 dataFormat.dwOfs, ar2)
          else if ¬ allowAnyInstance then none
          else some ({ s with buttonOffsetsUnused := insertSet s.buttonOffsetsUnused dataFormat.dwOfs }, ar2)
        else none
  else if dataFormat.dwType &&& DIDFT_POV ≠ 0 then
    if ¬ (dataFormat.dwOfs + SizeofInstance InstanceTypePov ≤ dataSize) then none
    else
      let c := CheckAndSetOffsets ar.offsetUsed dataFormat.dwOfs (SizeofInstance InstanceTypePov)
      if c.1 = false then none
      else
        let ar1 := { ar with offsetUsed := c.2 }
        if dataFormat.pguid = none ∨ dataFormat.pguid = some DIGUID.pov then
          let instanceToSelect : ℤ :=
            if allowAnyInstance then (ar1.nextUnusedPov : ℤ) else specificInstance
          let r := SelectInstance InstanceTypePov ar1.povUsed prof.numPov instanceToSelect
          let ar2 := { ar1 with povUsed := r.2 }
          if 0 < r.1 then some (MapInstanceAndOffset s r.1 dataFormat.dwOfs, ar2)
          else if ¬ allowAnyInstance then none
          else some ({ s with povOffsetsUnused := insertSet s.povOffsetsUnused dataFormat.dwOfs }, ar2)
        else none
  else none

/-- The object-request loop of `SetApplicationDataFormat` (lines
908-1105): process each request in order, advancing the next-unused
counters after each; on `invalidParamsDetected` abandon the loop
returning the state mutated so far (the source frees only the local
arrays and returns `DIERR_INVALIDPARAM`, keeping the member maps). -/
def setDataFormatLoop (prof : MapperProfile) (dataSize : ℕ) :
    List DIOBJECTDATAFORMAT → MapperState → BinderArrays → Bool × MapperState
  | [], s, _ => (true, s)
  | dataFormat :: rest, s, ar =>
    match processObjectDataFormat prof dataSize dataFormat s ar with
    | none => (false, s)
    | some (s1, ar1) =>
      let ar2 :=
        { ar1 with
          nextUnusedAxis :=
            advanceNextUnused ar1.axisUsed prof.numAxes (prof.numAxes + 1) ar1.nextUnusedAxis
          nextUnusedButton :=
            advanceNextUnused ar1.buttonUsed prof.numButtons (prof.numButtons + 1) ar1.nextUnusedButton
          nextUnusedPov :=
            advanceNextUnused ar1.povUsed prof.numPov (prof.numPov + 1) ar1.nextUnusedPov }
      setDataFormatLoop prof dataSize rest s1 ar2

/-- Source function `Mapper::ResetApplicationDataFormat` (`Mapper.cpp`
lines 1251-1260): clear both maps and all unused-offset sets and mark the
maps invalid.  (`dataPacketSize` is not touched.) -/
def ResetApplicationDataFormat (s : MapperState) : MapperState :=
  { s with
    instanceToOffset := []
    offsetToInstance := []
    axisOffsetsUnused := []
    buttonOffsetsUnused := []
    povOffsetsUnused := []
    mapsValid := false }

/-- The body of `Mapper::SetApplicationDataFormat` after the initial
`ResetApplicationDataFormat()` call (`Mapper.cpp` lines 875-1114). -/
def SetApplicationDataFormatFrom (prof : MapperProfile) (s : MapperState)
    (lpdf : DIDATAFORMAT) : ℕ × MapperState :=
  if lpdf.dwDataSize % 4 ≠ 0 then (DIERR_INVALIDPARAM, s)
  else if prof.kMaxDataPacketSize < lpdf.dwDataSize then (DIERR_INVALIDPARAM, s)
  else
    match setDataFormatLoop prof lpdf.dwDataSize lpdf.rgodf
        { s with dataPacketSize := lpdf.dwDataSize } initBinderArrays with
    | (false, s2) => (DIERR_INVALIDPARAM, s2)
    | (true, s2) => (S_OK, { s2 with mapsValid := true })

/-- Source function `Mapper::SetApplicationDataFormat` (`Mapper.cpp` lines
864-1115): reset the maps first (line 873), then validate and bind. -/
def SetApplicationDataFormat (prof : MapperProfile) (s : MapperState)
    (lpdf : DIDATAFORMAT) : ℕ × MapperState :=
  SetApplicationDataFormatFrom prof (ResetApplicationDataFormat s) lpdf

end Mapper

namespace Mapper

theorem reset_idempotent (s : MapperState) :
    ResetApplicationDataFormat (ResetApplicationDataFormat s) = ResetApplicationDataFormat s := rfl

set_option maxHeartbeats 2000000 in
theorem processObjectDataFormat_mapsValid {prof : MapperProfile} {dataSize : ℕ}
    {df : DIOBJECTDATAFORMAT} {s : MapperState} {ar : BinderArrays}
    {s' : MapperState} {ar' : BinderArrays}
    (h : processObjectDataFormat prof dataSize df s ar = some (s', ar')) :
    s'.mapsValid = s.mapsValid := by
  simp only [processObjectDataFormat] at h
  repeat' split at h
  all_goals
    first
      | exact Option.noConfusion h
      | (injection h with h1
         injection h1 with ha hb
         subst ha
         rfl)

theorem setDataFormatLoop_mapsValid (prof : MapperProfile) (dataSize : ℕ) :
    ∀ (reqs : List DIOBJECTDATAFORMAT) (s : MapperState) (ar : BinderArrays),
      ((setDataFormatLoop prof dataSize reqs s ar).2).mapsValid = s.mapsValid := by
  intro reqs
  induction reqs with
  | nil => intro s ar; rfl
  | cons df rest ih =>
    intro s ar
    unfold setDataFormatLoop
    cases hp : processObjectDataFormat prof dataSize df s ar with
    | none => rfl
    | some p =>
      obtain ⟨s1, ar1⟩ := p
      simp only []
      rw [ih]
      exact processObjectDataFormat_mapsValid hp

end Mapper

/-- C2 (amended): setting the application data format is NOT
all-or-nothing with respect to the previous binding.  The call begins by
resetting the binding (`ResetApplicationDataFormat`, `Mapper.cpp` line
873), so the state after the call never depends on the previously
installed maps — running from any state is the same as running from the
reset state — and on an `invalid-param` failure the binding is left torn
down (`mapsValid = false`, the previous maps are gone; mappings created by
already-processed requests of the failing call remain in the maps). -/
theorem claim_C2 (prof : Mapper.MapperProfile) (s : Mapper.MapperState)
    (lpdf : Mapper.DIDATAFORMAT) :
    Mapper.SetApplicationDataFormat prof s lpdf
      = Mapper.SetApplicationDataFormat prof (Mapper.ResetApplicationDataFormat s) lpdf
    ∧ ((Mapper.SetApplicationDataFormat prof s lpdf).1 = Mapper.DIERR_INVALIDPARAM →
        ((Mapper.SetApplicationDataFormat prof s lpdf).2).mapsValid = false) := by
  constructor
  · rfl
  · intro hfail
    unfold Mapper.SetApplicationDataFormat Mapper.SetApplicationDataFormatFrom at hfail ⊢
    by_cases h4 : lpdf.dwDataSize % 4 ≠ 0
    · rw [if_pos h4]
      rfl
    · rw [if_neg h4] at hfail ⊢
      by_cases hmax : prof.kMaxDataPacketSize < lpdf.dwDataSize
      · rw [if_pos hmax]
        rfl
      · rw [if_neg hmax] at hfail ⊢
        split at hfail
        · rename_i s2 heq
          have h2 := congrArg (fun p => (Prod.snd p).mapsValid) heq
          simp only at h2
          rw [Mapper.setDataFormatLoop_mapsValid] at h2
          simp only [Mapper.ResetApplicationDataFormat] at h2
          simpa using h2.symm
        · rename_i s2 heq
          exact absurd hfail (by simp [Mapper.S_OK, Mapper.DIERR_INVALIDPARAM])

/-- C2 (witness for the amended theorem): a concrete failing call — a
previously installed binding, and a new data format whose packet size 2 is
not a multiple of 4 — fails with `invalid-param` and leaves `mapsValid`
false (the old binding is discarded, not preserved). -/
theorem claim_C2_witness :
    ((Mapper.SetApplicationDataFormat ⟨4, 12, 1, fun _ _ => -1, 1024⟩
      ⟨8, [(65536, 0)], [(0, 65536)], [], [], [], true⟩ ⟨2, []⟩).2).mapsValid = false :=
  (claim_C2 ⟨4, 12, 1, fun _ _ => -1, 1024⟩
    ⟨8, [(65536, 0)], [(0, 65536)], [], [], [], true⟩ ⟨2, []⟩).2 (by decide)

/-- C2 (counterexample): the claim as stated is false — with a binding
installed (`mapsValid = true`, one button mapping) a call whose packet
size is not a multiple of 4 fails with `invalid-param`, yet the core's
binding state after the call differs from the state before it: the maps
were cleared by the initial reset. -/
theorem claim_C2_counterexample :
    (Mapper.SetApplicationDataFormat ⟨4, 12, 1, fun _ _ => -1, 1024⟩
      ⟨8, [(65536, 0)], [(0, 65536)], [], [], [], true⟩ ⟨2, []⟩).1 = Mapper.DIERR_INVALIDPARAM
    ∧ (Mapper.SetApplicationDataFormat ⟨4, 12, 1, fun _ _ => -1, 1024⟩
        ⟨8, [(65536, 0)], [(0, 65536)], [], [], [], true⟩ ⟨2, []⟩).2
      ≠ ⟨8, [(65536, 0)], [(0, 65536)], [], [], [], true⟩ := by
  refine ⟨by decide, by decide⟩

theorem offsetsAllClear_falseBase (start n : ℕ) :
    Mapper.offsetsAllClear (fun _ => false) start n = true :=
  (Mapper.offsetsAllClear_iff (fun _ => false) n start).2 (fun _ _ => rfl)

theorem checkAndSet_falseBase (start count : ℕ) :
    Mapper.CheckAndSetOffsets (fun _ => false) start count
      = (true, Mapper.setOffsetsTrue (fun _ => false) start count) := by
  unfold Mapper.CheckAndSetOffsets
  rw [if_pos (offsetsAllClear_falseBase start count)]

theorem selectInstance_fst_zero (t cnt : ℕ) (h : 1 ≤ cnt) :
    (Mapper.SelectInstance t (fun _ => false) cnt 0).1
      = Mapper.MakeInstanceIdentifier t 0 := by
  unfold Mapper.SelectInstance
  rw [if_pos ⟨le_refl 0, by exact_mod_cast h, rfl⟩]

/-- The object-request loop applied to one well-formed button request
(type selector has the button flag, identity absent or the button GUID,
any-instance or a specific instance decoding to index 0, offset in
bounds) against a fresh set of local arrays: button instance 0 is
selected (its identifier `1 << 16` passes the `> 0` test at `Mapper.cpp`
line 1018) and mapped to the requested offset. -/
theorem loop_single_button_eq (prof : Mapper.MapperProfile) (dataSize ofs : ℕ)
    (pg : Option Mapper.DIGUID) (ty : ℕ)
    (hpg : pg = none ∨ pg = some Mapper.DIGUID.button)
    (haxis : ty &&& Mapper.DIDFT_ABSAXIS = 0)
    (hbtn : ¬ ty &&& Mapper.DIDFT_PSHBUTTON = 0)
    (hsel : ty &&& Mapper.DIDFT_INSTANCEMASK = Mapper.DIDFT_ANYINSTANCE
            ∨ (¬ ty &&& Mapper.DIDFT_INSTANCEMASK = Mapper.DIDFT_ANYINSTANCE
               ∧ toShort16 ((Mapper.DIDFT_GETINSTANCE ty : ℕ) : ℤ) = 0))
    (hofs : ofs + 1 ≤ dataSize) (hnb : 1 ≤ prof.numButtons) :
    ∀ s1 : Mapper.MapperState,
      Mapper.setDataFormatLoop prof dataSize [⟨pg, ofs, ty⟩] s1 Mapper.initBinderArrays
        = (true, Mapper.MapInstanceAndOffset s1
            (Mapper.MakeInstanceIdentifier Mapper.InstanceTypeButton 0) ofs) := by
  intro s1
  have hlt : ¬ dataSize < ofs + 1 := by omega
  have hfst := selectInstance_fst_zero 1 prof.numButtons hnb
  have hpos : (0:ℤ) < Mapper.MakeInstanceIdentifier 1 0 := by
    norm_num [Mapper.MakeInstanceIdentifier]
  rcases hpg with rfl | rfl <;>
    [rcases hsel with hany | ⟨hany, hspec⟩; rcases hsel with hany | ⟨hany, hspec⟩] <;>
    simp only [Mapper.setDataFormatLoop, Mapper.processObjectDataFormat,
      Mapper.initBinderArrays, Mapper.SizeofInstance, Mapper.InstanceTypeButton,
      Mapper.InstanceTypeAxis, Mapper.InstanceTypePov, haxis, hbtn, hany,
      checkAndSet_falseBase, ne_eq, not_false_eq_true, not_true_eq_false,
      if_true, if_false, ite_true, ite_false, Nat.cast_zero, Nat.cast_ofNat] <;>
    simp [hlt, hofs, hfst, hpos, *]

/-- The analogue of `loop_single_button_eq` for one well-formed POV
request: POV instance 0 is selected (identifier `2 << 16` passes the `> 0`
test at `Mapper.cpp` line 1059) and mapped. -/
theorem loop_single_pov_eq (prof : Mapper.MapperProfile) (dataSize ofs : ℕ)
    (pg : Option Mapper.DIGUID) (ty : ℕ)
    (hpg : pg = none ∨ pg = some Mapper.DIGUID.pov)
    (haxis : ty &&& Mapper.DIDFT_ABSAXIS = 0)
    (hbtn : ty &&& Mapper.DIDFT_PSHBUTTON = 0)
    (hpov : ¬ ty &&& Mapper.DIDFT_POV = 0)
    (hsel : ty &&& Mapper.DIDFT_INSTANCEMASK = Mapper.DIDFT_ANYINSTANCE
            ∨ (¬ ty &&& Mapper.DIDFT_INSTANCEMASK = Mapper.DIDFT_ANYINSTANCE
               ∧ toShort16 ((Mapper.DIDFT_GETINSTANCE ty : ℕ) : ℤ) = 0))
    (hofs : ofs + 4 ≤ dataSize) (hnp : 1 ≤ prof.numPov) :
    ∀ s1 : Mapper.MapperState,
      Mapper.setDataFormatLoop prof dataSize [⟨pg, ofs, ty⟩] s1 Mapper.initBinderArrays
        = (true, Mapper.MapInstanceAndOffset s1
            (Mapper.MakeInstanceIdentifier Mapper.InstanceTypePov 0) ofs) := by
  intro s1
  have hlt : ¬ dataSize < ofs + 4 := by omega
  have hfst := selectInstance_fst_zero 2 prof.numPov hnp
  have hpos : (0:ℤ) < Mapper.MakeInstanceIdentifier 2 0 := by
    norm_num [Mapper.MakeInstanceIdentifier]
  rcases hpg with rfl | rfl <;>
    [rcases hsel with hany | ⟨hany, hspec⟩; rcases hsel with hany | ⟨hany, hspec⟩] <;>
    simp only [Mapper.setDataFormatLoop, Mapper.processObjectDataFormat,
      Mapper.initBinderArrays, Mapper.SizeofInstance, Mapper.InstanceTypeButton,
      Mapper.InstanceTypeAxis, Mapper.InstanceTypePov, haxis, hbtn, hpov, hany,
      checkAndSet_falseBase, ne_eq, not_false_eq_true, not_true_eq_false,
      if_true, if_false, ite_true, ite_false, Nat.cast_zero, Nat.cast_ofNat] <;>
    simp [hlt, hofs, hfst, hpos, *]

/-- C6: with the instance identifiers modelled from the spec (kinds
{Axis, Button, POV} packed as `(kind << 16) | index`, sentinel −1), button
and POV identifiers are at least 2^16, so the `selectedInstance > 0` tests
at `Mapper.cpp` lines 1018 and 1059 accept instance 0: against a profile
exposing at least one button (resp. POV), a single data-format request for
a button (identity absent or the button GUID) at a valid, non-overlapping
offset — the first any-instance request, or a specific request for
instance 0 — makes `SetApplicationDataFormat` succeed and bind button
(resp. POV) instance 0 to the requested offset, producing a mapping
rather than failing or recording the offset as unused. -/
theorem claim_C6 (prof : Mapper.MapperProfile) (s : Mapper.MapperState)
    (dataSize ofs : ℕ)
    (hnb : 1 ≤ prof.numButtons) (hnp : 1 ≤ prof.numPov)
    (h4 : dataSize % 4 = 0) (hmax : dataSize ≤ prof.kMaxDataPacketSize) :
    (∀ pg ty, (pg = none ∨ pg = some Mapper.DIGUID.button) →
      (ty = Mapper.DIDFT_PSHBUTTON ||| Mapper.DIDFT_ANYINSTANCE ∨ ty = Mapper.DIDFT_PSHBUTTON) →
      ofs + 1 ≤ dataSize →
      (Mapper.SetApplicationDataFormat prof s ⟨dataSize, [⟨pg, ofs, ty⟩]⟩).1 = Mapper.S_OK
      ∧ ((Mapper.SetApplicationDataFormat prof s ⟨dataSize, [⟨pg, ofs, ty⟩]⟩).2).instanceToOffset
          = [(Mapper.MakeInstanceIdentifier Mapper.InstanceTypeButton 0, ofs)]
      ∧ ((Mapper.SetApplicationDataFormat prof s ⟨dataSize, [⟨pg, ofs, ty⟩]⟩).2).buttonOffsetsUnused = [])
    ∧ (∀ pg ty, (pg = none ∨ pg = some Mapper.DIGUID.pov) →
      (ty = Mapper.DIDFT_POV ||| Mapper.DIDFT_ANYINSTANCE ∨ ty = Mapper.DIDFT_POV) →
      ofs + 4 ≤ dataSize →
      (Mapper.SetApplicationDataFormat prof s ⟨dataSize, [⟨pg, ofs, ty⟩]⟩).1 = Mapper.S_OK
      ∧ ((Mapper.SetApplicationDataFormat prof s ⟨dataSize, [⟨pg, ofs, ty⟩]⟩).2).instanceToOffset
          = [(Mapper.MakeInstanceIdentifier Mapper.InstanceTypePov 0, ofs)]
      ∧ ((Mapper.SetApplicationDataFormat prof s ⟨dataSize, [⟨pg, ofs, ty⟩]⟩).2).povOffsetsUnused = []) := by
  constructor
  · intro pg ty hpg hty hofs2
    have hl := loop_single_button_eq prof dataSize ofs pg ty hpg
      (by rcases hty with rfl | rfl <;> decide)
      (by rcases hty with rfl | rfl <;> decide)
      (by rcases hty with rfl | rfl
          · exact Or.inl (by decide)
          · exact Or.inr ⟨by decide, by decide⟩)
      hofs2 hnb
    rcases hcall : Mapper.SetApplicationDataFormat prof s ⟨dataSize, [⟨pg, ofs, ty⟩]⟩ with ⟨res, sfin⟩
    unfold Mapper.SetApplicationDataFormat Mapper.SetApplicationDataFormatFrom at hcall
    dsimp only at hcall
    rw [if_neg (by omega), if_neg (by omega), hl] at hcall
    dsimp only at hcall
    injection hcall with h1 h2
    subst h1
    subst h2
    refine ⟨rfl, ?_, rfl⟩
    simp [Mapper.MapInstanceAndOffset, Mapper.insertInstanceToOffset,
      Mapper.insertOffsetToInstance, Mapper.ResetApplicationDataFormat]
  · intro pg ty hpg hty hofs2
    have hl := loop_single_pov_eq prof dataSize ofs pg ty hpg
      (by rcases hty with rfl | rfl <;> decide)
      (by rcases hty with rfl | rfl <;> decide)
      (by rcases hty with rfl | rfl <;> decide)
      (by rcases hty with rfl | rfl
          · exact Or.inl (by decide)
          · exact Or.inr ⟨by decide, by decide⟩)
      hofs2 hnp
    rcases hcall : Mapper.SetApplicationDataFormat prof s ⟨dataSize, [⟨pg, ofs, ty⟩]⟩ with ⟨res, sfin⟩
    unfold Mapper.SetApplicationDataFormat Mapper.SetApplicationDataFormatFrom at hcall
    dsimp only at hcall
    rw [if_neg (by omega), if_neg (by omega), hl] at hcall
    dsimp only at hcall
    injection hcall with h1 h2
    subst h1
    subst h2
    refine ⟨rfl, ?_, rfl⟩
    simp [Mapper.MapInstanceAndOffset, Mapper.insertInstanceToOffset,
      Mapper.insertOffsetToInstance, Mapper.ResetApplicationDataFormat]

/-- C6 (witness): a concrete call — profile with 12 buttons and 1 POV,
fresh state, packet size 8, one specific-instance-0 button request at
offset 0 — succeeds and binds button instance 0 (identifier 2^16) to
offset 0, leaving no unused button offsets. -/
theorem claim_C6_witness :
    (Mapper.SetApplicationDataFormat ⟨4, 12, 1, fun _ _ => -1, 1024⟩
      ⟨0, [], [], [], [], [], false⟩ ⟨8, [⟨none, 0, Mapper.DIDFT_PSHBUTTON⟩]⟩).1 = Mapper.S_OK
    ∧ ((Mapper.SetApplicationDataFormat ⟨4, 12, 1, fun _ _ => -1, 1024⟩
        ⟨0, [], [], [], [], [], false⟩ ⟨8, [⟨none, 0, Mapper.DIDFT_PSHBUTTON⟩]⟩).2).instanceToOffset
      = [(Mapper.MakeInstanceIdentifier Mapper.InstanceTypeButton 0, 0)]
    ∧ ((Mapper.SetApplicationDataFormat ⟨4, 12, 1, fun _ _ => -1, 1024⟩
        ⟨0, [], [], [], [], [], false⟩ ⟨8, [⟨none, 0, Mapper.DIDFT_PSHBUTTON⟩]⟩).2).buttonOffsetsUnused = [] :=
  (claim_C6 ⟨4, 12, 1, fun _ _ => -1, 1024⟩ ⟨0, [], [], [], [], [], false⟩ 8 0
    (by norm_num) (by norm_num) (by norm_num) (by norm_num)).1
    none Mapper.DIDFT_PSHBUTTON (Or.inl rfl) (Or.inr rfl) (by norm_num)

namespace VirtualController

/-! ## Axis properties of the virtual controller (C7, C10)

The `SAxisProperties` structure and its setters are declared in
`VirtualController.h`, which is not in `src`; the fields are the ones the
code in `VirtualController.cpp` reads, and the setters are modelled from
the spec. -/

/-- Modelled from the spec: `Controller::kAnalogValueNeutral` (§4.1,
neutral value 0; `ControllerTypes.h` is not in `src`). -/
def kAnalogValueNeutral : ℤ := 0

/-- Modelled from the spec: the analog raw maximum +32767 (§4.1). -/
def kAnalogValueMax : ℤ := 32767

/-- Modelled from the spec: the analog raw minimum −32768 (§4.1). -/
def kAnalogValueMin : ℤ := -32768

/-- Modelled from the spec: deadzone bounds 0..10000 (§3, §4.3;
`VirtualController.h` is not in `src`). -/
def kAxisDeadzoneMin : ℕ := 0

/-- Modelled from the spec: deadzone maximum 10000. -/
def kAxisDeadzoneMax : ℕ := 10000

/-- Modelled from the spec: saturation bounds 0..10000. -/
def kAxisSaturationMin : ℕ := 0

/-- Modelled from the spec: saturation maximum 10000. -/
def kAxisSaturationMax : ℕ := 10000

/-- The per-axis properties of the virtual controller, with the fields
read by `TransformAxisValue` and `ApplyProperties`
(`VirtualController.cpp` lines 46-81). -/
structure SAxisProperties where
  rangeMin : ℤ
  rangeMax : ℤ
  rangeNeutral : ℤ
  deadzoneRawCutoffPositive : ℤ
  deadzoneRawCutoffNegative : ℤ
  saturationRawCutoffPositive : ℤ
  saturationRawCutoffNegative : ℤ
  deadzone : ℕ
  saturation : ℕ
deriving DecidableEq

/-- Modelled from the spec: `SAxisProperties::SetDeadzone` stores the
validated deadzone and refreshes the raw cutoffs so that `pct ≤ deadzone`
iff the raw displacement is within `rawHalf·deadzone/SAT_MAX` (§4.3). -/
def SAxisProperties.SetDeadzone (p : SAxisProperties) (deadzone : ℕ) : SAxisProperties :=
  { p with
    deadzone := deadzone
    deadzoneRawCutoffPositive := (kAnalogValueMax * (deadzone : ℤ)).tdiv 10000
    deadzoneRawCutoffNegative := (kAnalogValueMin * (deadzone : ℤ)).tdiv 10000 }

/-- Modelled from the spec: `SAxisProperties::SetSaturation` stores the
validated saturation and refreshes the raw cutoffs (§4.3). -/
def SAxisProperties.SetSaturation (p : SAxisProperties) (saturation : ℕ) : SAxisProperties :=
  { p with
    saturation := saturation
    saturationRawCutoffPositive := (kAnalogValueMax * (saturation : ℤ)).tdiv 10000
    saturationRawCutoffNegative := (kAnalogValueMin * (saturation : ℤ)).tdiv 10000 }

/-- Modelled from the spec: `SAxisProperties::SetRange` stores the
validated range and its midpoint `mid = (rangeMin+rangeMax)/2` (§4.3,
truncation toward zero). -/
def SAxisProperties.SetRange (p : SAxisProperties) (rangeMin rangeMax : ℤ) : SAxisProperties :=
  { p with
    rangeMin := rangeMin
    rangeMax := rangeMax
    rangeNeutral := (rangeMin + rangeMax).tdiv 2 }

/-- Source function `VirtualController::SetAllAxisDeadzone`
(`VirtualController.cpp` lines 205-216): validate, then apply to every
axis of the properties array. -/
def SetAllAxisDeadzone (properties : List SAxisProperties) (deadzone : ℕ) :
    Bool × List SAxisProperties :=
  if kAxisDeadzoneMin ≤ deadzone ∧ deadzone ≤ kAxisDeadzoneMax then
    (true, properties.map (fun p => p.SetDeadzone deadzone))
  else
    (false, properties)

/-- Source function `VirtualController::SetAllAxisRange` (lines 220-231). -/
def SetAllAxisRange (properties : List SAxisProperties) (rangeMin rangeMax : ℤ) :
    Bool × List SAxisProperties :=
  if rangeMin < rangeMax then
    (true, properties.map (fun p => p.SetRange rangeMin rangeMax))
  else
    (false, properties)

/-- Source function `VirtualController::SetAllAxisSaturation` (lines
235-246). -/
def SetAllAxisSaturation (properties : List SAxisProperties) (saturation : ℕ) :
    Bool × List SAxisProperties :=
  if kAxisSaturationMin ≤ saturation ∧ saturation ≤ kAxisSaturationMax then
    (true, properties.map (fun p => p.SetSaturation saturation))
  else
    (false, properties)

end VirtualController

namespace Mapper

/-! ## `Mapper::SetMappedProperty` (`Mapper.cpp` lines 1119-1247) -/

/-- DirectInput SDK constant `DIPH_DEVICE`. -/
def DIPH_DEVICE : ℕ := 0

/-- DirectInput SDK constant `DIPH_BYOFFSET`. -/
def DIPH_BYOFFSET : ℕ := 1

/-- DirectInput SDK constant `DIPH_BYID`. -/
def DIPH_BYID : ℕ := 2

/-- DirectInput SDK constant `DIPROPAXISMODE_ABS`. -/
def DIPROPAXISMODE_ABS : ℕ := 0

/-- HRESULT `DI_OK`. -/
def DI_OK : ℕ := 0

/-- HRESULT `DI_PROPNOEFFECT` (= `S_FALSE`, 1). -/
def DI_PROPNOEFFECT : ℕ := 1

/-- HRESULT `DIERR_UNSUPPORTED` (= `E_NOTIMPL`, 0x80004001). -/
def DIERR_UNSUPPORTED : ℕ := 0x80004001

/-- HRESULT `DIERR_OBJECTNOTFOUND` (0x80070002). -/
def DIERR_OBJECTNOTFOUND : ℕ := 0x80070002

/-- Modelled from the spec: the deadzone/saturation fixed-point bounds of
`Mapper.h` (`kMinAxisDeadzoneSaturation`, 0..10000; §4.3). -/
def kMinAxisDeadzoneSaturation : ℕ := 0

/-- Modelled from the spec: `kMaxAxisDeadzoneSaturation` = 10000. -/
def kMaxAxisDeadzoneSaturation : ℕ := 10000

/-- Byte size of `DIPROPHEADER` (4 DWORDs). -/
def sizeofDIPROPHEADER : ℕ := 16

/-- Byte size of `DIPROPDWORD`. -/
def sizeofDIPROPDWORD : ℕ := 20

/-- Byte size of `DIPROPRANGE`. -/
def sizeofDIPROPRANGE : ℕ := 24

/-- Modelled from the spec: `Mapper::ExtractIdentifierInstanceType`, the
inverse of the kind component of `MakeInstanceIdentifier` (arithmetic
shift right by 16); the sentinel −1 stays negative. -/
def extractIdentifierInstanceType (id : ℤ) : ℤ := Int.fdiv id 65536

/-- Modelled from the spec: `Mapper::ExtractIdentifierInstanceIndex`, the
low 16 bits of the identifier read back as a signed 16-bit index. -/
def extractIdentifierInstanceIndex (id : ℤ) : ℤ := toShort16 (id % 65536)

/-- The property kinds distinguished by `IsPropertyHandledByMapper`
(`Mapper.cpp` lines 822-830); `other` stands for every unhandled GUID. -/
inductive EProp
  | axisMode | deadzone | saturation | range | other
deriving DecidableEq

/-- Source function `Mapper::IsPropertyHandledByMapper`. -/
def IsPropertyHandledByMapper (guidProperty : EProp) : Bool :=
  match guidProperty with
  | EProp.other => false
  | _ => true

/-- The members of `DIPROPHEADER` read by the property code. -/
structure DIPROPHEADER where
  dwSize : ℕ
  dwHeaderSize : ℕ
  dwObj : ℕ
  dwHow : ℕ
deriving DecidableEq

/-- Modelled from the spec: `Mapper::NumInstancesOfType`, the per-profile
object counts (§4.2). -/
def numInstancesOfType (prof : MapperProfile) (t : ℤ) : ℤ :=
  if t = 0 then prof.numAxes
  else if t = 1 then prof.numButtons
  else if t = 2 then prof.numPov
  else 0

/-- DirectInput SDK macro `DIDFT_GETTYPE` (low byte). -/
def DIDFT_GETTYPE (n : ℕ) : ℕ := n &&& 0xFF

/-- Source function `Mapper::InstanceIdentifierFromDirectInputIdentifier`
(`Mapper.cpp` lines 423-447). -/
def InstanceIdentifierFromDirectInputIdentifier (prof : MapperProfile)
    (diIdentifier : ℕ) : ℤ :=
  let t : ℤ :=
    if DIDFT_GETTYPE diIdentifier = DIDFT_ABSAXIS then 0
    else if DIDFT_GETTYPE diIdentifier = DIDFT_PSHBUTTON then 1
    else if DIDFT_GETTYPE diIdentifier = DIDFT_POV then 2
    else -1
  let idx : ℤ := toShort16 ((DIDFT_GETINSTANCE diIdentifier : ℕ) : ℤ)
  if t < 0 then -1
  else if numInstancesOfType prof t ≤ idx then -1
  else MakeInstanceIdentifier t.toNat idx

/-- Source function `Mapper::InstanceForOffset` (`Mapper.cpp` lines
798-811). -/
def InstanceForOffset (ms : MapperState) (offset : ℕ) : ℤ :=
  if ms.mapsValid then
    match ms.offsetToInstance.lookup offset with
    | some inst => inst
    | none => -1
  else -1

/-- Source function `Mapper::InstanceIdentifierFromDirectInputSpec`
(`Mapper.cpp` lines 451-470). -/
def InstanceIdentifierFromDirectInputSpec (prof : MapperProfile)
    (ms : MapperState) (dwObj dwHow : ℕ) : ℤ :=
  if dwHow = DIPH_BYOFFSET then InstanceForOffset ms dwObj
  else if dwHow = DIPH_BYID then InstanceIdentifierFromDirectInputIdentifier prof dwObj
  else -1

/-- Source function `Mapper::InitializeAxisProperties` (`Mapper.cpp`
lines 403-419): allocate the default table on first use, otherwise keep
the existing one. -/
def InitializeAxisProperties (numAxes : ℕ) :
    Option (List SAxisProperties) → List SAxisProperties
  | none => List.replicate numAxes defaultAxisProperties
  | some l => l

/-- One write of the property loop: update the entry at a (validated,
in-range) integer index, leaving the list unchanged when the index is
out of range. -/
def setAtIdx (l : List SAxisProperties) (idx : ℤ)
    (f : SAxisProperties → SAxisProperties) : List SAxisProperties :=
  if idx < 0 then l
  else
    match l.get? idx.toNat with
    | some p => l.set idx.toNat (f p)
    | none => l

/-- The write loop of `SetMappedProperty` (`Mapper.cpp` lines 1208-1237):
update the entries at indices `extractIdentifierInstanceIndex start`,
`...(start+1)`, ..., `count` entries in total. -/
def updateInstanceRange (f : SAxisProperties → SAxisProperties) :
    List SAxisProperties → ℤ → ℕ → List SAxisProperties
  | ap, _, 0 => ap
  | ap, start, n + 1 =>
    updateInstanceRange f (setAtIdx ap (extractIdentifierInstanceIndex start) f) (start + 1) n

/-- The per-property write branch of `SetMappedProperty` (`Mapper.cpp`
lines 1200-1238), from `startInstance` to `endInstance` inclusive. -/
def setMappedPropertyWrite (rguidProp : EProp) (dwData : ℕ) (lMin lMax : ℤ)
    (ap : List SAxisProperties) (startInstance endInstance : ℤ) :
    ℕ × List SAxisProperties :=
  if rguidProp = EProp.deadzone then
    if dwData < kMinAxisDeadzoneSaturation ∨ kMaxAxisDeadzoneSaturation < dwData then
      (DIERR_INVALIDPARAM, ap)
    else
      (DI_OK, updateInstanceRange (fun p => { p with deadzone := dwData })
        ap startInstance (endInstance + 1 - startInstance).toNat)
  else if rguidProp = EProp.saturation then
    if dwData < kMinAxisDeadzoneSaturation ∨ kMaxAxisDeadzoneSaturation < dwData then
      (DIERR_INVALIDPARAM, ap)
    else
      (DI_OK, updateInstanceRange (fun p => { p with saturation := dwData })
        ap startInstance (endInstance + 1 - startInstance).toNat)
  else
    if ¬ lMin < lMax then
      (DIERR_INVALIDPARAM, ap)
    else
      (DI_OK, updateInstanceRange (fun p => { p with rangeMin := lMin, rangeMax := lMax })
        ap startInstance (endInstance + 1 - startInstance).toNat)

/-- Source function `Mapper::SetMappedProperty` (`Mapper.cpp` lines
1119-1247).  The `DIPROPDWORD`/`DIPROPRANGE` payloads are passed as
`dwData` and `lMin`/`lMax`; the mapper's `axisProperties` member is
passed in (lazily initialised) and the updated table returned. -/
def SetMappedProperty (prof : MapperProfile) (ms : MapperState) (rguidProp : EProp)
    (pdiph : DIPROPHEADER) (dwData : ℕ) (lMin lMax : ℤ)
    (ap0 : Option (List SAxisProperties)) : ℕ × List SAxisProperties :=
  let ap := InitializeAxisProperties prof.numAxes ap0
  if ¬ IsPropertyHandledByMapper rguidProp then (DIERR_UNSUPPORTED, ap)
  else if pdiph.dwHeaderSize ≠ sizeofDIPROPHEADER then (DIERR_INVALIDPARAM, ap)
  else if pdiph.dwHow = DIPH_DEVICE ∧ pdiph.dwObj ≠ 0 then (DIERR_INVALIDPARAM, ap)
  else if rguidProp = EProp.axisMode then
    if dwData = DIPROPAXISMODE_ABS then (DI_PROPNOEFFECT, ap)
    else (DIERR_UNSUPPORTED, ap)
  else
    if pdiph.dwSize ≠ (if rguidProp = EProp.deadzone ∨ rguidProp = EProp.saturation
        then sizeofDIPROPDWORD else sizeofDIPROPRANGE) then
      (DIERR_INVALIDPARAM, ap)
    else if pdiph.dwHow = DIPH_DEVICE then
      if ((prof.numAxes : ℤ) - 1) < 0 then (DIERR_OBJECTNOTFOUND, ap)
      else setMappedPropertyWrite rguidProp dwData lMin lMax ap 0 ((prof.numAxes : ℤ) - 1)
    else
      let inst := InstanceIdentifierFromDirectInputSpec prof ms pdiph.dwObj pdiph.dwHow
      if inst < 0 then (DIERR_OBJECTNOTFOUND, ap)
      else if extractIdentifierInstanceType inst ≠ 0 then (DIERR_UNSUPPORTED, ap)
      else setMappedPropertyWrite rguidProp dwData lMin lMax ap
        (extractIdentifierInstanceIndex inst) (extractIdentifierInstanceIndex inst)

end Mapper

namespace Mapper

/-- On a 16-bit-range nonnegative value, extracting the instance index is
the identity. -/
theorem extractIdx_small (k : ℤ) (h0 : 0 ≤ k) (h1 : k < 32768) :
    extractIdentifierInstanceIndex k = k := by
  unfold extractIdentifierInstanceIndex toShort16
  omega

/-- `setAtIdx` expressed pointwise via optional indexing. -/
theorem setAtIdx_getElem? (l : List SAxisProperties) (idx : ℤ)
    (f : SAxisProperties → SAxisProperties) (i : ℕ) :
    (setAtIdx l idx f)[i]? = if (i : ℤ) = idx then (l[i]?).map f else l[i]? := by
  unfold setAtIdx
  split
  · rw [if_neg (by omega)]
  · rename_i hneg
    rw [List.get?_eq_getElem?]
    cases hg : l[idx.toNat]? with
    | none =>
      by_cases hi : (i : ℤ) = idx
      · have hti : idx.toNat = i := by omega
        rw [hti] at hg
        rw [if_pos hi, hg]
        rfl
      · rw [if_neg hi]
    | some p =>
      rw [List.getElem?_set]
      have hlen : idx.toNat < l.length := by
        by_contra hc
        rw [List.getElem?_eq_none (by omega)] at hg
        exact Option.noConfusion hg
      by_cases hi : (i : ℤ) = idx
      · have hti : idx.toNat = i := by omega
        rw [if_pos hti, if_pos hlen, if_pos hi, ← hti, hg]
        rfl
      · rw [if_neg (by omega), if_neg hi]

/-- Pointwise description of the property write loop: the entries at
indices `start`, ..., `start + n − 1` are transformed, everything else is
untouched (all indices staying below the signed 16-bit extraction bound). -/
theorem updateInstanceRange_getElem? (f : SAxisProperties → SAxisProperties) :
    ∀ (n : ℕ) (l : List SAxisProperties) (start : ℤ), 0 ≤ start → start + n ≤ 32768 →
    ∀ i : ℕ, (updateInstanceRange f l start n)[i]?
      = if start ≤ (i : ℤ) ∧ (i : ℤ) < start + n then (l[i]?).map f else l[i]? := by
  intro n
  induction n with
  | zero =>
    intro l start h0 hle i
    rw [updateInstanceRange]
    rw [if_neg (by omega)]
  | succ n ih =>
    intro l start h0 hle i
    rw [updateInstanceRange]
    rw [extractIdx_small start h0 (by omega)]
    rw [ih (setAtIdx l start f) (start + 1) (by omega) (by push_cast at hle ⊢; omega) i]
    rw [setAtIdx_getElem?]
    split_ifs <;> first | rfl | omega

/-- The whole-device write loop maps the setter over the entire table. -/
theorem updateInstanceRange_eq_map (f : SAxisProperties → SAxisProperties)
    (l : List SAxisProperties) (hlen : l.length ≤ 32768) :
    updateInstanceRange f l 0 l.length = l.map f := by
  apply List.ext_getElem?
  intro i
  rw [updateInstanceRange_getElem? f l.length l 0 (by norm_num) (by omega) i]
  rw [List.getElem?_map]
  split_ifs with h
  · rfl
  · have hnone : l[i]? = (none : Option SAxisProperties) := by
      apply List.getElem?_eq_none
      omega
    rw [hnone]
    rfl

end Mapper

namespace Mapper

/-- On a whole-device request with valid header, `SetMappedProperty`
reaches the write branch covering axis indices `0 .. numAxes − 1`. -/
theorem setMappedProperty_device (prof : MapperProfile) (ms : MapperState)
    (pdiph : DIPROPHEADER) (rguidProp : EProp) (dwData : ℕ) (lMin lMax : ℤ)
    (l : List SAxisProperties)
    (hna : rguidProp ≠ EProp.axisMode) (hnh : rguidProp ≠ EProp.other)
    (hhdr : pdiph.dwHeaderSize = sizeofDIPROPHEADER)
    (hhow : pdiph.dwHow = DIPH_DEVICE) (hobj : pdiph.dwObj = 0)
    (hax : prof.numAxes = l.length) (h1 : 1 ≤ l.length)
    (hsz : pdiph.dwSize = (if rguidProp = EProp.deadzone ∨ rguidProp = EProp.saturation
        then sizeofDIPROPDWORD else sizeofDIPROPRANGE)) :
    SetMappedProperty prof ms rguidProp pdiph dwData lMin lMax (some l)
      = setMappedPropertyWrite rguidProp dwData lMin lMax l 0 ((l.length : ℤ) - 1) := by
  have hhandled : IsPropertyHandledByMapper rguidProp = true := by
    cases rguidProp <;> first | rfl | exact absurd rfl hnh
  simp only [SetMappedProperty, InitializeAxisProperties]
  rw [if_neg (not_not_intro hhandled)]
  rw [if_neg (not_not_intro hhdr)]
  rw [if_neg (fun h => h.2 hobj)]
  rw [if_neg hna]
  rw [if_neg (not_not_intro hsz)]
  rw [if_pos hhow]
  rw [hax]
  rw [if_neg (by omega)]

end Mapper

/-- C7: every whole-device (bulk) property write of Range, Deadzone, or
Saturation is atomic.  In the virtual controller, `SetAllAxisDeadzone`,
`SetAllAxisSaturation` and `SetAllAxisRange` either reject an
out-of-bounds value and leave every axis untouched, or apply the new
value to every axis.  In the mapper, a whole-device `SetMappedProperty`
of deadzone, saturation, or range either fails with
`DIERR_INVALIDPARAM` leaving the axis-properties table unchanged, or
returns `DI_OK` with the new value applied to every axis. -/
theorem claim_C7 :
    (∀ (props : List VirtualController.SAxisProperties) (d : ℕ),
      (d ≤ 10000 →
        VirtualController.SetAllAxisDeadzone props d
          = (true, props.map (fun p => p.SetDeadzone d))) ∧
      (10000 < d → VirtualController.SetAllAxisDeadzone props d = (false, props))) ∧
    (∀ (props : List VirtualController.SAxisProperties) (s : ℕ),
      (s ≤ 10000 →
        VirtualController.SetAllAxisSaturation props s
          = (true, props.map (fun p => p.SetSaturation s))) ∧
      (10000 < s → VirtualController.SetAllAxisSaturation props s = (false, props))) ∧
    (∀ (props : List VirtualController.SAxisProperties) (lo hi : ℤ),
      (lo < hi →
        VirtualController.SetAllAxisRange props lo hi
          = (true, props.map (fun p => p.SetRange lo hi))) ∧
      (¬ lo < hi → VirtualController.SetAllAxisRange props lo hi = (false, props))) ∧
    (∀ (prof : Mapper.MapperProfile) (ms : Mapper.MapperState)
        (pdiph : Mapper.DIPROPHEADER) (dwData : ℕ) (lMin lMax : ℤ)
        (l : List Mapper.SAxisProperties),
      pdiph.dwHeaderSize = Mapper.sizeofDIPROPHEADER →
      pdiph.dwHow = Mapper.DIPH_DEVICE →
      pdiph.dwObj = 0 →
      prof.numAxes = l.length →
      1 ≤ l.length → l.length ≤ 32768 →
      ((pdiph.dwSize = Mapper.sizeofDIPROPDWORD →
        ((dwData ≤ 10000 →
          Mapper.SetMappedProperty prof ms Mapper.EProp.deadzone pdiph dwData lMin lMax (some l)
            = (Mapper.DI_OK, l.map (fun p => { p with deadzone := dwData }))) ∧
         (10000 < dwData →
          Mapper.SetMappedProperty prof ms Mapper.EProp.deadzone pdiph dwData lMin lMax (some l)
            = (Mapper.DIERR_INVALIDPARAM, l)) ∧
         (dwData ≤ 10000 →
          Mapper.SetMappedProperty prof ms Mapper.EProp.saturation pdiph dwData lMin lMax (some l)
            = (Mapper.DI_OK, l.map (fun p => { p with saturation := dwData }))) ∧
         (10000 < dwData →
          Mapper.SetMappedProperty prof ms Mapper.EProp.saturation pdiph dwData lMin lMax (some l)
            = (Mapper.DIERR_INVALIDPARAM, l)))) ∧
       (pdiph.dwSize = Mapper.sizeofDIPROPRANGE →
        ((lMin < lMax →
          Mapper.SetMappedProperty prof ms Mapper.EProp.range pdiph dwData lMin lMax (some l)
            = (Mapper.DI_OK,
               l.map (fun p => { p with rangeMin := lMin, rangeMax := lMax }))) ∧
         (¬ lMin < lMax →
          Mapper.SetMappedProperty prof ms Mapper.EProp.range pdiph dwData lMin lMax (some l)
            = (Mapper.DIERR_INVALIDPARAM, l)))))) := by
  refine ⟨?_, ?_, ?_, ?_⟩
  · intro props d
    constructor
    · intro h
      unfold VirtualController.SetAllAxisDeadzone
      rw [if_pos ⟨Nat.zero_le d, h⟩]
    · intro h
      unfold VirtualController.SetAllAxisDeadzone
      rw [if_neg (by unfold VirtualController.kAxisDeadzoneMin VirtualController.kAxisDeadzoneMax; omega)]
  · intro props s
    constructor
    · intro h
      unfold VirtualController.SetAllAxisSaturation
      rw [if_pos ⟨Nat.zero_le s, h⟩]
    · intro h
      unfold VirtualController.SetAllAxisSaturation
      rw [if_neg (by unfold VirtualController.kAxisSaturationMin VirtualController.kAxisSaturationMax; omega)]
  · intro props lo hi
    constructor
    · intro h
      unfold VirtualController.SetAllAxisRange
      rw [if_pos h]
    · intro h
      unfold VirtualController.SetAllAxisRange
      rw [if_neg h]
  · intro prof ms pdiph dwData lMin lMax l hhdr hhow hobj hax h1 h32
    have hcnt : (((l.length : ℤ) - 1) + 1 - 0).toNat = l.length := by omega
    constructor
    · intro hsz
      have hdev1 := Mapper.setMappedProperty_device prof ms pdiph Mapper.EProp.deadzone
        dwData lMin lMax l (by decide) (by decide) hhdr hhow hobj hax h1
        (by rw [hsz]; rw [if_pos (Or.inl rfl)])
      have hdev2 := Mapper.setMappedProperty_device prof ms pdiph Mapper.EProp.saturation
        dwData lMin lMax l (by decide) (by decide) hhdr hhow hobj hax h1
        (by rw [hsz]; rw [if_pos (Or.inr rfl)])
      refine ⟨?_, ?_, ?_, ?_⟩
      · intro h
        rw [hdev1]
        unfold Mapper.setMappedPropertyWrite
        rw [if_pos rfl,
          if_neg (by unfold Mapper.kMinAxisDeadzoneSaturation Mapper.kMaxAxisDeadzoneSaturation; omega),
          hcnt,
          Mapper.updateInstanceRange_eq_map _ l h32]
      · intro h
        rw [hdev1]
        unfold Mapper.setMappedPropertyWrite
        rw [if_pos rfl,
          if_pos (by unfold Mapper.kMinAxisDeadzoneSaturation Mapper.kMaxAxisDeadzoneSaturation; omega)]
      · intro h
        rw [hdev2]
        unfold Mapper.setMappedPropertyWrite
        rw [if_neg (by decide), if_pos rfl,
          if_neg (by unfold Mapper.kMinAxisDeadzoneSaturation Mapper.kMaxAxisDeadzoneSaturation; omega),
          hcnt,
          Mapper.updateInstanceRange_eq_map _ l h32]
      · intro h
        rw [hdev2]
        unfold Mapper.setMappedPropertyWrite
        rw [if_neg (by decide), if_pos rfl,
          if_pos (by unfold Mapper.kMinAxisDeadzoneSaturation Mapper.kMaxAxisDeadzoneSaturation; omega)]
    · intro hsz
      have hdev := Mapper.setMappedProperty_device prof ms pdiph Mapper.EProp.range
        dwData lMin lMax l (by decide) (by decide) hhdr hhow hobj hax h1
        (by rw [hsz]; rw [if_neg (by decide)])
      constructor
      · intro h
        rw [hdev]
        unfold Mapper.setMappedPropertyWrite
        rw [if_neg (by decide), if_neg (by decide), if_neg (not_not_intro h), hcnt,
          Mapper.updateInstanceRange_eq_map _ l h32]
      · intro h
        rw [hdev]
        unfold Mapper.setMappedPropertyWrite
        rw [if_neg (by decide), if_neg (by decide), if_pos h]

/-- Witness instantiating `claim_C7`: a one-axis controller accepts a
bulk deadzone of 500 through both the virtual-controller setter and the
whole-device mapper property path. -/
theorem claim_C7_witness :
    VirtualController.SetAllAxisDeadzone
        [(⟨-32768, 32767, 0, 0, 0, 32767, -32768, 0, 10000⟩ :
          VirtualController.SAxisProperties)] 500
      = (true, [(⟨-32768, 32767, 0, 0, 0, 32767, -32768, 0, 10000⟩ :
          VirtualController.SAxisProperties)].map (fun p => p.SetDeadzone 500)) ∧
    Mapper.SetMappedProperty (⟨1, 0, 0, fun _ _ => -1, 32⟩ : Mapper.MapperProfile)
        (⟨0, [], [], [], [], [], false⟩ : Mapper.MapperState) Mapper.EProp.deadzone
        (⟨20, 16, 0, 0⟩ : Mapper.DIPROPHEADER) 500 0 0
        (some [Mapper.defaultAxisProperties])
      = (Mapper.DI_OK,
         [Mapper.defaultAxisProperties].map (fun p => { p with deadzone := 500 })) :=
  ⟨(claim_C7.1 _ 500).1 (by norm_num),
   ((claim_C7.2.2.2 _ _ _ 500 0 0 [Mapper.defaultAxisProperties]
      rfl rfl rfl rfl (by norm_num) (by norm_num)).1 rfl).1 (by norm_num)⟩

namespace VirtualController

/-- Source function `TransformAxisValue` (`VirtualController.cpp` lines
46-66): deadzone clamps to neutral, saturation clamps to the range
endpoint, and in between the value is remapped with the 32-bit integer
`MapValueInRangeToRange` (lines 37-40). -/
def TransformAxisValue (axisValueRaw : ℤ) (axisProperties : SAxisProperties) : ℤ :=
  if axisValueRaw > kAnalogValueNeutral then
    if axisValueRaw ≤ axisProperties.deadzoneRawCutoffPositive then
      axisProperties.rangeNeutral
    else if axisValueRaw ≥ axisProperties.saturationRawCutoffPositive then
      axisProperties.rangeMax
    else
      MapValueInRangeToRange axisValueRaw axisProperties.deadzoneRawCutoffPositive
        axisProperties.saturationRawCutoffPositive axisProperties.rangeNeutral
        axisProperties.rangeMax
  else
    if axisValueRaw ≥ axisProperties.deadzoneRawCutoffNegative then
      axisProperties.rangeNeutral
    else if axisValueRaw ≤ axisProperties.saturationRawCutoffNegative then
      axisProperties.rangeMin
    else
      MapValueInRangeToRange axisValueRaw axisProperties.deadzoneRawCutoffNegative
        axisProperties.saturationRawCutoffNegative axisProperties.rangeNeutral
        axisProperties.rangeMin

/-- Source function `VirtualController::ApplyProperties`
(`VirtualController.cpp` lines 72-81): for each capability axis type in
order, transform the state entry of that axis in place.  The state's
axis array is a total function from axis index to value. -/
def ApplyProperties (axisTypes : List ℕ) (properties : ℕ → SAxisProperties)
    (axis : ℕ → ℤ) : ℕ → ℤ :=
  axisTypes.foldl
    (fun st a => fun j => if j = a then TransformAxisValue (st a) (properties a) else st j)
    axis

/-- The well-formedness hypothesis of the claim: ranges ordered around
the neutral point and deadzone/saturation raw cutoffs ordered around the
analog neutral value. -/
def SAxisProperties.WellFormed (p : SAxisProperties) : Prop :=
  p.rangeMin ≤ p.rangeNeutral ∧ p.rangeNeutral ≤ p.rangeMax ∧
  p.saturationRawCutoffNegative ≤ p.deadzoneRawCutoffNegative ∧
  p.deadzoneRawCutoffNegative ≤ 0 ∧ 0 ≤ p.deadzoneRawCutoffPositive ∧
  p.deadzoneRawCutoffPositive ≤ p.saturationRawCutoffPositive

/-- The additional no-overflow bounds: range endpoints and saturation
cutoffs inside the signed-16-bit analog interval. -/
def SAxisProperties.InAnalogBounds (p : SAxisProperties) : Prop :=
  -32768 ≤ p.rangeMin ∧ p.rangeMax ≤ 32767 ∧
  -32768 ≤ p.saturationRawCutoffNegative ∧ p.saturationRawCutoffPositive ≤ 32767

instance (p : SAxisProperties) : Decidable p.WellFormed := by
  unfold SAxisProperties.WellFormed
  infer_instance

instance (p : SAxisProperties) : Decidable p.InAnalogBounds := by
  unfold SAxisProperties.InAnalogBounds
  infer_instance

/-- Bounds for the positive remap branch of `TransformAxisValue` when no
32-bit intermediate overflows. -/
theorem mapValue_pos_bounds (raw dz sat neutral mx : ℤ)
    (h1 : 0 ≤ dz) (h2 : dz < raw) (h3 : raw < sat) (h4 : sat ≤ 32767)
    (h5 : neutral ≤ mx) (h6 : -32768 ≤ neutral) (h7 : mx ≤ 32767) :
    neutral ≤ MapValueInRangeToRange raw dz sat neutral mx ∧
      MapValueInRangeToRange raw dz sat neutral mx ≤ mx := by
  unfold MapValueInRangeToRange
  rw [wrap32_eq_self (x := raw - dz) (by omega) (by omega),
    wrap32_eq_self (x := mx - neutral) (by omega) (by omega),
    wrap32_eq_self (x := sat - dz) (by omega) (by omega)]
  have hprod : 0 ≤ (raw - dz) * (mx - neutral) := mul_nonneg (by omega) (by omega)
  have hprodhi : (raw - dz) * (mx - neutral) ≤ 32767 * 65535 :=
    mul_le_mul (by omega) (by omega) (by omega) (by omega)
  rw [wrap32_eq_self (x := (raw - dz) * (mx - neutral)) (by omega) (by omega)]
  have hqe : ((raw - dz) * (mx - neutral)).tdiv (sat - dz)
      = ((raw - dz) * (mx - neutral)) / (sat - dz) := Int.tdiv_eq_ediv hprod (by omega)
  have hq0 : 0 ≤ ((raw - dz) * (mx - neutral)) / (sat - dz) :=
    Int.ediv_nonneg hprod (by omega)
  have hqb : ((raw - dz) * (mx - neutral)) / (sat - dz) ≤ mx - neutral := by
    calc ((raw - dz) * (mx - neutral)) / (sat - dz)
        ≤ ((sat - dz) * (mx - neutral)) / (sat - dz) :=
          Int.ediv_le_ediv (by omega) (mul_le_mul_of_nonneg_right (by omega) (by omega))
      _ = mx - neutral := Int.mul_ediv_cancel_left _ (by omega)
  rw [hqe, wrap32_eq_self (by omega) (by omega)]
  omega

/-- Bounds for the negative remap branch of `TransformAxisValue` when no
32-bit intermediate overflows. -/
theorem mapValue_neg_bounds (raw dz sat neutral mn : ℤ)
    (h1 : dz ≤ 0) (h2 : raw < dz) (h3 : sat < raw) (h4 : -32768 ≤ sat)
    (h5 : mn ≤ neutral) (h6 : -32768 ≤ mn) (h7 : neutral ≤ 32767) :
    mn ≤ MapValueInRangeToRange raw dz sat neutral mn ∧
      MapValueInRangeToRange raw dz sat neutral mn ≤ neutral := by
  unfold MapValueInRangeToRange
  rw [wrap32_eq_self (x := raw - dz) (by omega) (by omega),
    wrap32_eq_self (x := mn - neutral) (by omega) (by omega),
    wrap32_eq_self (x := sat - dz) (by omega) (by omega)]
  have hprod : 0 ≤ (raw - dz) * (mn - neutral) := by
    have hrw : (raw - dz) * (mn - neutral) = (dz - raw) * (neutral - mn) := by ring
    rw [hrw]
    exact mul_nonneg (by omega) (by omega)
  have hprodhi : (raw - dz) * (mn - neutral) ≤ 32767 * 65535 := by
    have : (raw - dz) * (mn - neutral) = (dz - raw) * (neutral - mn) := by ring
    rw [this]
    exact mul_le_mul (by omega) (by omega) (by omega) (by omega)
  rw [wrap32_eq_self (x := (raw - dz) * (mn - neutral)) (by omega) (by omega)]
  have hne : sat - dz = -(dz - sat) := by ring
  rw [hne, Int.tdiv_neg]
  have hqe : ((raw - dz) * (mn - neutral)).tdiv (dz - sat)
      = ((raw - dz) * (mn - neutral)) / (dz - sat) := Int.tdiv_eq_ediv hprod (by omega)
  have hq0 : 0 ≤ ((raw - dz) * (mn - neutral)) / (dz - sat) :=
    Int.ediv_nonneg hprod (by omega)
  have hqb : ((raw - dz) * (mn - neutral)) / (dz - sat) ≤ neutral - mn := by
    calc ((raw - dz) * (mn - neutral)) / (dz - sat)
        ≤ ((dz - sat) * (neutral - mn)) / (dz - sat) := by
          apply Int.ediv_le_ediv (by omega)
          have : (raw - dz) * (mn - neutral) = (dz - raw) * (neutral - mn) := by ring
          rw [this]
          exact mul_le_mul_of_nonneg_right (by omega) (by omega)
      _ = neutral - mn := Int.mul_ediv_cancel_left _ (by omega)
  rw [hqe, wrap32_eq_self (by omega) (by omega)]
  omega

/-- Range preservation of a single transform under well-formedness and
no-overflow bounds. -/
theorem transformAxisValue_inRange (raw : ℤ) (p : SAxisProperties)
    (hw : p.WellFormed) (hb : p.InAnalogBounds) :
    p.rangeMin ≤ TransformAxisValue raw p ∧ TransformAxisValue raw p ≤ p.rangeMax := by
  obtain ⟨w1, w2, w3, w4, w5, w6⟩ := hw
  obtain ⟨b1, b2, b3, b4⟩ := hb
  unfold TransformAxisValue kAnalogValueNeutral
  split_ifs with c1 c2 c3 c4 c5
  · omega
  · omega
  · have := mapValue_pos_bounds raw p.deadzoneRawCutoffPositive
      p.saturationRawCutoffPositive p.rangeNeutral p.rangeMax
      w5 (by omega) (by omega) (by omega) (by omega) (by omega) (by omega)
    omega
  · omega
  · omega
  · have := mapValue_neg_bounds raw p.deadzoneRawCutoffNegative
      p.saturationRawCutoffNegative p.rangeNeutral p.rangeMin
      w4 (by omega) (by omega) (by omega) (by omega) (by omega) (by omega)
    omega

end VirtualController

namespace VirtualController

/-- Fold invariant for `ApplyProperties`: the transform loop maps every
in-range entry to an in-range entry, and every axis it visits ends up in
range regardless of its starting value. -/
theorem applyProperties_bounds (properties : ℕ → SAxisProperties)
    (hp : ∀ a, (properties a).WellFormed ∧ (properties a).InAnalogBounds) :
    ∀ (ts : List ℕ) (st : ℕ → ℤ),
      (∀ a, ((properties a).rangeMin ≤ st a ∧ st a ≤ (properties a).rangeMax) →
        ((properties a).rangeMin ≤ ApplyProperties ts properties st a ∧
          ApplyProperties ts properties st a ≤ (properties a).rangeMax)) ∧
      (∀ a ∈ ts,
        (properties a).rangeMin ≤ ApplyProperties ts properties st a ∧
          ApplyProperties ts properties st a ≤ (properties a).rangeMax) := by
  intro ts
  induction ts with
  | nil =>
    intro st
    constructor
    · intro a h
      exact h
    · intro a ha
      exact absurd ha (List.not_mem_nil a)
  | cons t ts ih =>
    intro st
    have hstep : ApplyProperties (t :: ts) properties st
        = ApplyProperties ts properties
            (fun j => if j = t then TransformAxisValue (st t) (properties t) else st j) := rfl
    have ht' : (properties t).rangeMin
          ≤ (fun j => if j = t then TransformAxisValue (st t) (properties t) else st j) t ∧
        (fun j => if j = t then TransformAxisValue (st t) (properties t) else st j) t
          ≤ (properties t).rangeMax := by
      have hbnd := transformAxisValue_inRange (st t) (properties t) (hp t).1 (hp t).2
      simpa using hbnd
    have hmono : ∀ a, ((properties a).rangeMin ≤ st a ∧ st a ≤ (properties a).rangeMax) →
        ((properties a).rangeMin
            ≤ (fun j => if j = t then TransformAxisValue (st t) (properties t) else st j) a ∧
          (fun j => if j = t then TransformAxisValue (st t) (properties t) else st j) a
            ≤ (properties a).rangeMax) := by
      intro a h
      by_cases hat : a = t
      · subst hat
        exact ht'
      · simpa [hat] using h
    obtain ⟨pres, mem⟩ :=
      ih (fun j => if j = t then TransformAxisValue (st t) (properties t) else st j)
    constructor
    · intro a h
      rw [hstep]
      exact pres a (hmono a h)
    · intro a ha
      rw [hstep]
      rcases List.mem_cons.mp ha with rfl | hts
      · exact pres a ht'
      · exact mem a hts

end VirtualController

/-- Counterexample to C10 as stated: the property record with range
`[0, 2^30]`, neutral 0, positive deadzone cutoff 0 and positive
saturation cutoff 4 is well formed, yet transforming the raw value 3
makes the 32-bit intermediate product `3 * 2^30` wrap and the result is
−268435456, far below `rangeMin = 0`. -/
theorem claim_C10_counterexample :
    ¬ (∀ (raw : ℤ) (p : VirtualController.SAxisProperties),
        p.WellFormed →
        p.rangeMin ≤ VirtualController.TransformAxisValue raw p ∧
          VirtualController.TransformAxisValue raw p ≤ p.rangeMax) := by
  intro h
  have hc := h 3 ⟨0, 1073741824, 0, 0, 0, 4, 0, 0, 10000⟩ (by decide)
  have he : VirtualController.TransformAxisValue 3
      ⟨0, 1073741824, 0, 0, 0, 4, 0, 0, 10000⟩ = -268435456 := by decide
  rw [he] at hc
  exact absurd hc.1 (by decide)

/-- C10 (amended): with the additional no-overflow bounds — range
endpoints and saturation cutoffs inside the signed-16-bit analog
interval — `TransformAxisValue` returns a value within
`[rangeMin, rangeMax]` for every raw value, and `ApplyProperties` puts
every axis the capability list visits inside its configured range. -/
theorem claim_C10 :
    (∀ (raw : ℤ) (p : VirtualController.SAxisProperties),
      p.WellFormed → p.InAnalogBounds →
      p.rangeMin ≤ VirtualController.TransformAxisValue raw p ∧
        VirtualController.TransformAxisValue raw p ≤ p.rangeMax) ∧
    (∀ (axisTypes : List ℕ) (properties : ℕ → VirtualController.SAxisProperties)
        (axis : ℕ → ℤ),
      (∀ a, (properties a).WellFormed ∧ (properties a).InAnalogBounds) →
      ∀ a ∈ axisTypes,
        (properties a).rangeMin
            ≤ VirtualController.ApplyProperties axisTypes properties axis a ∧
          VirtualController.ApplyProperties axisTypes properties axis a
            ≤ (properties a).rangeMax) := by
  constructor
  · intro raw p hw hb
    exact VirtualController.transformAxisValue_inRange raw p hw hb
  · intro axisTypes properties axis hp a ha
    exact (VirtualController.applyProperties_bounds properties hp axisTypes axis).2 a ha

/-- Witness instantiating `claim_C10` at a concrete well-formed record
with 1%-deadzone and 99%-saturation raw cutoffs over the default range. -/
theorem claim_C10_witness :
    ((⟨-32768, 32767, 0, 327, -327, 32440, -32440, 100, 9900⟩ :
          VirtualController.SAxisProperties).rangeMin
        ≤ VirtualController.TransformAxisValue 16000
            ⟨-32768, 32767, 0, 327, -327, 32440, -32440, 100, 9900⟩ ∧
      VirtualController.TransformAxisValue 16000
            ⟨-32768, 32767, 0, 327, -327, 32440, -32440, 100, 9900⟩
        ≤ (⟨-32768, 32767, 0, 327, -327, 32440, -32440, 100, 9900⟩ :
          VirtualController.SAxisProperties).rangeMax) ∧
    (∀ a ∈ [0, 1],
      ((fun _ : ℕ => (⟨-32768, 32767, 0, 327, -327, 32440, -32440, 100, 9900⟩ :
            VirtualController.SAxisProperties)) a).rangeMin
          ≤ VirtualController.ApplyProperties [0, 1]
              (fun _ => ⟨-32768, 32767, 0, 327, -327, 32440, -32440, 100, 9900⟩)
              (fun _ => 5000) a ∧
        VirtualController.ApplyProperties [0, 1]
              (fun _ => ⟨-32768, 32767, 0, 327, -327, 32440, -32440, 100, 9900⟩)
              (fun _ => 5000) a
          ≤ ((fun _ : ℕ => (⟨-32768, 32767, 0, 327, -327, 32440, -32440, 100, 9900⟩ :
            VirtualController.SAxisProperties)) a).rangeMax) :=
  ⟨claim_C10.1 16000 ⟨-32768, 32767, 0, 327, -327, 32440, -32440, 100, 9900⟩
      (by decide) (by decide),
   claim_C10.2 [0, 1] (fun _ => ⟨-32768, 32767, 0, 327, -327, 32440, -32440, 100, 9900⟩)
      (fun _ => 5000)
      (fun _ =>
        (⟨by decide, by decide⟩ :
          (⟨-32768, 32767, 0, 327, -327, 32440, -32440, 100, 9900⟩ :
              VirtualController.SAxisProperties).WellFormed ∧
          (⟨-32768, 32767, 0, 327, -327, 32440, -32440, 100, 9900⟩ :
              VirtualController.SAxisProperties).InAnalogBounds))⟩
